import Mathlib

/-!
Verification development for the HdPrman MaterialX material-filter pass
(`matfiltMaterialX.cpp`).  The C++ code is shallowly embedded: the mutable
`HdMaterialNetworkInterface` becomes a `Network` value threaded through the
rewrite functions, the MaterialX document becomes `MxDoc`, and the external
collaborators (MaterialX OSL shader generation, the OSL compiler toolchain,
the Sdr node-definition registry, the Ar asset resolver, the hdMtlx document
builder) are explicit oracle functions bundled in `Oracles`.  Diagnostics
(`TF_WARN`) are collected in a warning list; shader-generation and
compilation attempts are recorded in event logs so that "generated exactly
once" style properties can be stated.
-/

namespace MatfiltMX

/-! ## String helpers (token ordering, path parsing) -/

/-- Lexicographic comparison on character lists (byte order on the code
points), mirroring `std::string` comparison used by `TfToken::operator<`. -/
def charsLe : List Char → List Char → Bool
  | [], _ => true
  | _ :: _, [] => false
  | a :: as, b :: bs =>
    if a.toNat < b.toNat then true
    else if b.toNat < a.toNat then false
    else charsLe as bs

/-- `a ≤ b` on strings, as used for `std::map<TfToken, ...>` key ordering. -/
def strLe (a b : String) : Bool := charsLe a.data b.data

/-- Insert a string into a sorted list (insertion sort step). -/
def insertSorted (x : String) : List String → List String
  | [] => [x]
  | y :: ys => if strLe x y then x :: y :: ys else y :: insertSorted x ys

/-- Sort a list of strings; models the sorted iteration order of
`std::map<TfToken, ...>` when enumerating connection/parameter names. -/
def sortStr (l : List String) : List String := l.foldr insertSorted []

/-- Membership test on a list of strings (models `std::set::count`). -/
def containsStr : List String → String → Bool
  | [], _ => false
  | y :: ys, x => if y = x then true else containsStr ys x

/-- Insert into a string set if not already present (models
`std::set::insert`; order of iteration is irrelevant to the rewrite). -/
def insertStr (l : List String) (x : String) : List String :=
  if containsStr l x then l else l ++ [x]

/-- Split a character list at `/` separators. -/
def splitSlash : List Char → List Char → List (List Char)
  | [], acc => [acc.reverse]
  | c :: cs, acc =>
    if c = '/' then acc.reverse :: splitSlash cs [] else splitSlash cs (c :: acc)

/-- Non-empty path segments of an `SdfPath`-style string such as
`/Material/NodeGraph/Node`. -/
def pathSegs (s : String) : List String :=
  ((splitSlash s.data []).map (fun l => String.mk l)).filter (fun seg => seg ≠ "")

/-- `SdfPath::GetName`: the last path segment. -/
def pathName (s : String) : String := ((pathSegs s).getLast?).getD ""

/-- `SdfPath::GetParentPath().GetName()`: the second-to-last path segment. -/
def pathParentName (s : String) : String :=
  match (pathSegs s).reverse with
  | _ :: p :: _ => p
  | _ => ""

/-! ## Association-list helpers (models of `std::map` keyed by token) -/

/-- First value bound to `key`, if any. -/
def lookupA {α : Type} : List (String × α) → String → Option α
  | [], _ => none
  | (k, v) :: rest, key => if k = key then some v else lookupA rest key

/-- Update the binding of `key`, or append it if absent. -/
def setA {α : Type} : List (String × α) → String → α → List (String × α)
  | [], key, v => [(key, v)]
  | (k, w) :: rest, key, v =>
    if k = key then (k, v) :: rest else (k, w) :: setA rest key v

/-- Remove all bindings of `key`. -/
def eraseA {α : Type} : List (String × α) → String → List (String × α)
  | [], _ => []
  | (k, w) :: rest, key =>
    if k = key then eraseA rest key else (k, w) :: eraseA rest key

/-! ## Data model: the Hydra material network -/

/-- A typed parameter value (`VtValue`).  `asset` carries the already
resolved filesystem path of an `SdfAssetPath`; `other` stands for any
further value kind the rewrite only copies around. -/
inductive VtVal where
  | str (s : String)
  | asset (resolvedPath : String)
  | other (tag : String)
deriving DecidableEq

/-- `UncheckedGet<std::string>`; reading a non-string value is undefined
behaviour in the source and modelled as the empty string. -/
def vtGetString : VtVal → String
  | .str s => s
  | _ => ""

/-- One upstream connection `(upstreamNodeName, upstreamOutputName)`. -/
structure InputConnection where
  upstreamNodeName : String
  upstreamOutputName : String
deriving DecidableEq

/-- One node record of the material network (`HdMaterialNode2`). -/
structure MatNode where
  nodeType : String
  parameters : List (String × VtVal)
  inputConnections : List (String × List InputConnection)
deriving DecidableEq

/-- The mutable material network exposed through
`HdMaterialNetworkInterface`: node records plus named terminal
connections (e.g. `surface`). -/
structure Network where
  nodes : List (String × MatNode)
  terminals : List (String × InputConnection)
deriving DecidableEq

def emptyMatNode : MatNode := ⟨"", [], []⟩

def getNode (net : Network) (n : String) : Option MatNode := lookupA net.nodes n

/-- `GetNodeType`: empty token when the node is absent. -/
def getNodeType (net : Network) (n : String) : String :=
  match getNode net n with
  | some nd => nd.nodeType
  | none => ""

/-- Update a node record, creating the node if absent (the interface's
get-or-create behaviour behind the `Set...` entry points). -/
def updNode (net : Network) (n : String) (f : MatNode → MatNode) : Network :=
  match lookupA net.nodes n with
  | some nd => { net with nodes := setA net.nodes n (f nd) }
  | none => { net with nodes := net.nodes ++ [(n, f emptyMatNode)] }

/-- Update a node record only when the node exists (the interface's
`Delete...` entry points return early on a missing node). -/
def mapNode (net : Network) (n : String) (f : MatNode → MatNode) : Network :=
  match lookupA net.nodes n with
  | some nd => { net with nodes := setA net.nodes n (f nd) }
  | none => net

def setNodeType (net : Network) (n t : String) : Network :=
  updNode net n (fun nd => { nd with nodeType := t })

/-- `GetNodeInputConnectionNames`: sorted key list of the node's input
connection map (token-sorted `std::map` iteration). -/
def getNodeInputConnectionNames (net : Network) (n : String) : List String :=
  match getNode net n with
  | some nd => sortStr (nd.inputConnections.map Prod.fst)
  | none => []

def getNodeInputConnection (net : Network) (n c : String) : List InputConnection :=
  match getNode net n with
  | some nd =>
    match lookupA nd.inputConnections c with
    | some conns => conns
    | none => []
  | none => []

def setNodeInputConnection (net : Network) (n c : String)
    (conns : List InputConnection) : Network :=
  updNode net n (fun nd => { nd with inputConnections := setA nd.inputConnections c conns })

def deleteNodeInputConnection (net : Network) (n c : String) : Network :=
  mapNode net n (fun nd => { nd with inputConnections := eraseA nd.inputConnections c })

/-- `GetAuthoredNodeParameterNames`: sorted parameter names. -/
def getAuthoredNodeParameterNames (net : Network) (n : String) : List String :=
  match getNode net n with
  | some nd => sortStr (nd.parameters.map Prod.fst)
  | none => []

/-- `GetNodeParameterValue`: `none` models the empty `VtValue`. -/
def getNodeParameterValue (net : Network) (n p : String) : Option VtVal :=
  match getNode net n with
  | some nd => lookupA nd.parameters p
  | none => none

def setNodeParameterValue (net : Network) (n p : String) (v : VtVal) : Network :=
  updNode net n (fun nd => { nd with parameters := setA nd.parameters p v })

def deleteNodeParameter (net : Network) (n p : String) : Network :=
  mapNode net n (fun nd => { nd with parameters := eraseA nd.parameters p })

def deleteNode (net : Network) (n : String) : Network :=
  { net with nodes := eraseA net.nodes n }

def getTerminalConnection (net : Network) (t : String) : Option InputConnection :=
  lookupA net.terminals t

def setTerminalConnection (net : Network) (t : String) (conn : InputConnection) : Network :=
  { net with terminals := setA net.terminals t conn }

/-- `_HasNode`: the node's type token is non-empty (i.e. the node exists in
the network).  The traversal code below inlines the negation as a direct
test `getNodeType net n = ""`. -/
def hasNode (net : Network) (n : String) : Prop := getNodeType net n ≠ ""

instance (net : Network) (n : String) : Decidable (hasNode net n) := by
  unfold hasNode; infer_instance

/-- Whether the network map has an entry for `n` (node presence, used to
state retention/pruning properties). -/
def nodeMem (net : Network) (n : String) : Prop := (lookupA net.nodes n).isSome = true

/-! ## The Sdr node-definition registry -/

/-- The slice of an `SdrShaderNode` registry entry the pass consumes:
its identifier, declared output names (`GetOutput`/`GetShaderOutput`),
declared input names (`GetInputNames`/`GetShaderInput`) and the
`Primvars` metadata entry used for the default texture coordinate. -/
structure SdrShaderNode where
  identifier : String
  outputs : List String
  inputs : List String
  primvars : String
deriving DecidableEq

/-- Entries added to the process-wide registry by
`GetShaderNodeFromAsset` during this pass; looked up by identifier. -/
def lookupRegistered : List SdrShaderNode → String → Option SdrShaderNode
  | [], _ => none
  | e :: rest, ident => if e.identifier = ident then some e else lookupRegistered rest ident

/-! ## The MaterialX document -/

/-- A MaterialX value as used by this pass: strings (file paths, geomprop
names) and small float vectors whose components here are the exact
integers 0 and 1 (`inhigh`/`inlow`). -/
inductive MxVal where
  | str (s : String)
  | fvec (v : List Int)
deriving DecidableEq

/-- A MaterialX input port: its type string, optional value and optional
connected node (the `nodename` attribute). -/
structure MxInput where
  inType : String
  value : Option MxVal
  connectedNode : Option String
deriving DecidableEq

/-- A MaterialX node: name, category, `nodedef` attribute and inputs. -/
structure MxNode where
  name : String
  category : String
  nodeDef : String
  inputs : List (String × MxInput)
deriving DecidableEq

/-- A MaterialX node graph container. -/
structure MxGraph where
  name : String
  nodes : List MxNode
deriving DecidableEq

/-- The MaterialX document: node graphs plus the names of document-level
nodes (material/shader nodes, only ever removed by the pass). -/
structure MxDoc where
  graphs : List MxGraph
  docNodes : List String
deriving DecidableEq

def MxGraph.getNode (g : MxGraph) (n : String) : Option MxNode :=
  g.nodes.find? (fun nd => nd.name = n)

def MxDoc.getNodeGraph (doc : MxDoc) (g : String) : Option MxGraph :=
  doc.graphs.find? (fun gr => gr.name = g)

def MxDoc.getNodeIn (doc : MxDoc) (g n : String) : Option MxNode :=
  match doc.getNodeGraph g with
  | some gr => gr.getNode n
  | none => none

/-- Apply `f` to the node named `n` inside graph `g`. -/
def MxDoc.updateNodeIn (doc : MxDoc) (g n : String) (f : MxNode → MxNode) : MxDoc :=
  { doc with graphs := doc.graphs.map (fun gr =>
      if gr.name = g then
        { gr with nodes := gr.nodes.map (fun nd => if nd.name = n then f nd else nd) }
      else gr) }

/-- `NodeGraph::addNode`: append a node to graph `g`. -/
def MxDoc.addNodeIn (doc : MxDoc) (g : String) (node : MxNode) : MxDoc :=
  { doc with graphs := doc.graphs.map (fun gr =>
      if gr.name = g then { gr with nodes := gr.nodes ++ [node] } else gr) }

/-- `Document::removeNode` on a document-level node. -/
def MxDoc.removeDocNode (doc : MxDoc) (n : String) : MxDoc :=
  { doc with docNodes := doc.docNodes.filter (fun m => m ≠ n) }

def MxNode.getInput (nd : MxNode) (i : String) : Option MxInput :=
  lookupA nd.inputs i

/-- `Node::setInputValue`: get-or-add the input, then set its value and
type attributes. -/
def MxNode.setInputValue (nd : MxNode) (iname : String) (v : MxVal) (ty : String) : MxNode :=
  match lookupA nd.inputs iname with
  | some inp => { nd with inputs := setA nd.inputs iname { inp with value := some v, inType := ty } }
  | none => { nd with inputs := nd.inputs ++ [(iname, ⟨ty, some v, none⟩)] }

/-- `Node::addInput` (the pass only calls it for inputs it just checked to
be absent). -/
def MxNode.addInput (nd : MxNode) (iname ty : String) : MxNode :=
  { nd with inputs := nd.inputs ++ [(iname, ⟨ty, none, none⟩)] }

/-- `Input::setConnectedNode` addressed by input name; `none` clears the
connection (a null node pointer). -/
def MxNode.setInputConnectedNode (nd : MxNode) (iname : String)
    (target : Option String) : MxNode :=
  match lookupA nd.inputs iname with
  | some inp => { nd with inputs := setA nd.inputs iname { inp with connectedNode := target } }
  | none => nd

/-! ## External collaborators (oracles) -/

/-- `ARCH_LIBRARY_SUFFIX` (the platform's shared-library suffix). -/
def archLibrarySuffix : String := ".so"

/-- The external collaborators, modelled as deterministic functions:

* `createShader doc shaderName nodeName`: MaterialX OSL shader generation
  (`mx::createShader`); `none` when generation fails.
* `getExtension`: `ArGetResolver().GetExtension` on a resolved path.
* `oslSupport`: the `PXR_OSL_SUPPORT_ENABLED` capability.
* `stdlibExists p`: whether `p/stdlib/osl` exists on disk.
* `compileBuffer src args`: `OSL::OSLCompiler::compile_buffer`, returning
  its success flag and the compiled buffer.
* `mkTmpFileName prefix suffix k`: `ArchMakeTmpFileName`.  Modelled from
  the spec: the Arch file-system layer is not part of the analysed source;
  the spec states compiled artifacts go to a process-temporary location
  with unique names per invocation, so the name is a function of a
  process-wide invocation counter `k` threaded through the pass.
* `fopenOk`: whether opening the artifact file for writing succeeds.
* `nodeFromAsset path`: the registry entry produced when registering the
  compiled artifact at `path` (`GetShaderNodeFromAsset`).  Modelled from
  the spec: the registry implementation is not part of the analysed
  source; the spec says a new entry is registered from the
  compiled-artifact path, its identifier derived from that path.
* `regByIdentifier` / `regByIdentifierOsl` / `regByIdentifierRmanCpp` /
  `regByIdAndType`: pre-existing registry lookups (unfiltered, filtered to
  the OSL source type, filtered to RmanCpp, and by identifier+source type).
* `searchPath`: `HdMtlxSearchPaths()`.
* `buildDoc net terminal cNames`: the hdMtlx document builder, returning
  the document and the texture node paths it discovered.
* `materialPathName`: `GetMaterialPrimPath().GetName()`. -/
structure Oracles where
  createShader : MxDoc → String → String → Option String
  getExtension : String → String
  oslSupport : Bool
  stdlibExists : String → Bool
  compileBuffer : String → List String → Bool × String
  mkTmpFileName : String → String → Nat → String
  fopenOk : String → Bool
  nodeFromAsset : String → SdrShaderNode
  regByIdentifier : String → Option SdrShaderNode
  regByIdentifierOsl : String → Option SdrShaderNode
  regByIdentifierRmanCpp : String → Option SdrShaderNode
  regByIdAndType : String → String → Option SdrShaderNode
  searchPath : List String
  buildDoc : Network → String → List String → MxDoc × List String
  materialPathName : String

/-- `SdrRegistry::GetShaderNodeByIdentifier` with no source-type filter:
entries registered during this pass shadow nothing (identifiers are
unique), so search them first, then the pre-existing registry. -/
def getShaderNodeByIdentifier (o : Oracles) (registered : List SdrShaderNode)
    (ident : String) : Option SdrShaderNode :=
  match lookupRegistered registered ident with
  | some e => some e
  | none => o.regByIdentifier ident

/-- `GetShaderNodeByIdentifier` filtered to `{OSL}`; entries registered
from compiled artifacts carry the OSL source type, so they participate. -/
def getShaderNodeByIdentifierOsl (o : Oracles) (registered : List SdrShaderNode)
    (ident : String) : Option SdrShaderNode :=
  match lookupRegistered registered ident with
  | some e => some e
  | none => o.regByIdentifierOsl ident

/-- `SdrRegistry::GetShaderNodeFromAsset`: register (or find) the entry
for a compiled artifact; returns the entry and the updated registry
additions. -/
def getShaderNodeFromAsset (o : Oracles) (registered : List SdrShaderNode)
    (path : String) : SdrShaderNode × List SdrShaderNode :=
  let e := o.nodeFromAsset path
  match lookupRegistered registered e.identifier with
  | some e0 => (e0, registered)
  | none => (e, registered ++ [e])

/-! ## `_FindGraphAndNodeByName` and `_GenMaterialXShaderCode` -/

/-- `_FindGraphAndNodeByName`: try the hinted graph, then the last graph,
then a linear scan of all graphs.  Returns the name of the graph pointer
left behind (if any) and whether the node was found. -/
def findGraphAndNodeByName (doc : MxDoc) (mxNodeGraphName mxNodeName : String) :
    Option String × Bool :=
  let g0 := doc.getNodeGraph mxNodeGraphName
  let found0 : Bool :=
    match g0 with
    | some g => (g.getNode mxNodeName).isSome
    | none => false
  if found0 then (g0.map MxGraph.name, true)
  else
    match doc.graphs.getLast? with
    | some gl =>
      if (gl.getNode mxNodeName).isSome then (some gl.name, true)
      else
        match doc.graphs.find? (fun g => (g.getNode mxNodeName).isSome) with
        | some g => (some g.name, true)
        | none => (g0.map MxGraph.name, false)
    | none => (g0.map MxGraph.name, false)

/-- `_GenMaterialXShaderCode`: resolve the node, then run the MaterialX
OSL generator (an oracle); empty string plus a diagnostic on failure.
The generator context options (search path registration, vertical flip
disabled) configure the external generator and are folded into the
`createShader` oracle. -/
def genMaterialXShaderCode (o : Oracles) (doc : MxDoc)
    (shaderName mxNodeName mxNodeGraphName : String) : String × List String :=
  match findGraphAndNodeByName doc mxNodeGraphName mxNodeName with
  | (none, _) =>
    ("", ["NodeGraph " ++ mxNodeGraphName ++ " not found in the mxDoc."])
  | (some _, false) =>
    ("", ["Node " ++ mxNodeName ++ " not found in " ++ mxNodeGraphName ++ " nodeGraph."])
  | (some _, true) =>
    match o.createShader doc shaderName mxNodeName with
    | some src => (src, [])
    | none => ("", ["Unable to create Shader for node " ++ mxNodeName ++ "."])

/-! ## `_GetAdapterNodeType` and `_GetUpdatedInputToken` -/

/-- `_GetAdapterNodeType`: closed map from the two supported MaterialX
surface conventions to their adapter identifiers; anything else warns and
yields the empty token. -/
def getAdapterNodeType (hdNodeType : String) : String × List String :=
  if hdNodeType = "ND_standard_surface_surfaceshader" then
    ("StandardSurfaceParameters", [])
  else if hdNodeType = "ND_UsdPreviewSurface_surfaceshader" then
    ("UsdPreviewSurfaceParameters", [])
  else
    ("", ["Unsupported Node Type " ++ hdNodeType])

/-- `_GetUpdatedInputToken`: the fixed OSL reserved-word rename table;
`none` models the empty token returned when no rename applies. -/
def getUpdatedInputToken (currInputName : String) : Option String :=
  if currInputName = "emission" then some "emission_value"
  else if currInputName = "subsurface" then some "subsurface_value"
  else if currInputName = "normal" then some "input_normal"
  else none

/-! ## `_GatherNodeGraphNodes` -/

/-- The state threaded through `_GatherNodeGraphNodes`: the collected
upstream node set, the shared visited set and the warning log. -/
structure GatherSt where
  upstream : List String
  visited : List String
  warnings : List String
deriving DecidableEq

/-- `_GatherNodeGraphNodes`: depth-first collection of every node
transitively upstream of `hdNodeName`.  The fuel argument bounds the
recursion depth; each recursive call is made right after inserting a new
node into the visited set, so `|network nodes| + 1` fuel is never
exhausted. -/
def gatherNodeGraphNodes (net : Network) : Nat → String → GatherSt → GatherSt
  | 0, _, st => st
  | fuel + 1, hdNodeName, st =>
    (getNodeInputConnectionNames net hdNodeName).foldl (fun st1 cName =>
      (getNodeInputConnection net hdNodeName cName).foldl (fun st2 conn =>
        let upstreamNodeName := conn.upstreamNodeName
        if getNodeType net upstreamNodeName = "" then
          { st2 with warnings := st2.warnings ++ ["Unknown material node " ++ upstreamNodeName] }
        else if containsStr st2.visited upstreamNodeName then st2
        else
          let st3 := { st2 with visited := st2.visited ++ [upstreamNodeName] }
          let st4 := gatherNodeGraphNodes net fuel upstreamNodeName st3
          { st4 with upstream := insertStr st4.upstream upstreamNodeName }) st1) st

/-! ## `_CompileOslSource` -/

/-- `_CompileOslSource`: with OSL support, build the include arguments,
run the external compiler and write the buffer to a fresh temporary file,
returning that file's path (empty plus a diagnostic only when the file
cannot be opened); without OSL support, empty plus one diagnostic.  Note
the source ignores `compile_buffer`'s success flag: the buffer — whatever
the compiler produced — is written out and its path returned. -/
def compileOslSource (o : Oracles) (name oslSource : String) (tmpCounter : Nat) :
    String × List String × Nat :=
  if o.oslSupport then
    let oslArgs := o.searchPath.map (fun p =>
      if o.stdlibExists p then "-I" ++ p ++ "/stdlib/osl" else "-I" ++ p)
    let _osoBuffer := o.compileBuffer oslSource oslArgs
    let compiledFilePath := o.mkTmpFileName ("MX." ++ name) ".oso" tmpCounter
    if o.fopenOk compiledFilePath then
      (compiledFilePath, [], tmpCounter + 1)
    else
      ("", ["Unable to save compiled MaterialX Osl shader at " ++ compiledFilePath],
       tmpCounter + 1)
  else
    ("", ["Unable to compile MaterialX generated Osl shader, enable OSL support for full MaterialX support in HdPrman."],
     tmpCounter)

/-! ## `_DeleteAllInputConnections` and `_DeleteAllParameters` -/

def deleteAllInputConnections (net : Network) (n : String) : Network :=
  (getNodeInputConnectionNames net n).foldl
    (fun acc c => deleteNodeInputConnection acc n c) net

def deleteAllParameters (net : Network) (n : String) : Network :=
  (getAuthoredNodeParameterNames net n).foldl
    (fun acc p => deleteNodeParameter acc n p) net

/-! ## `_UpdateNetwork` -/

/-- The mutable state of one rewrite invocation: the network, the
MaterialX document, the entries this pass registered, the diagnostics,
the generation / compilation event logs and the temporary-file counter. -/
structure RewriteState where
  net : Network
  doc : MxDoc
  registered : List SdrShaderNode
  warnings : List String
  genAttempts : List String
  compileAttempts : List String
  tmpCounter : Nat
deriving DecidableEq

/-- The accumulator of `_UpdateNetwork`'s main loop: the rewrite state
plus the `nodesToKeep`, `nodesToRemove` and `visitedNodeNames` sets. -/
structure UNAcc where
  rs : RewriteState
  nodesToKeep : List String
  nodesToRemove : List String
  visited : List String
deriving DecidableEq

/-- The already-visited branch of `_UpdateNetwork`'s loop: look up the
(already rewritten) node's registry entry; if it declares the requested
output, rewire the terminal's input, otherwise warn; a missing entry is
skipped silently. -/
def processReuse (o : Oracles) (terminalNodeName cName : String)
    (conn : InputConnection) (acc : UNAcc) : UNAcc :=
  let upstreamNodeName := conn.upstreamNodeName
  let outputName := conn.upstreamOutputName
  match getShaderNodeByIdentifier o acc.rs.registered
          (getNodeType acc.rs.net upstreamNodeName) with
  | none => acc
  | some sdrNode =>
    if containsStr sdrNode.outputs outputName then
      let net1 := setNodeInputConnection acc.rs.net terminalNodeName cName
        [⟨upstreamNodeName, outputName⟩]
      { acc with rs := { acc.rs with net := net1 } }
    else
      let w1 := acc.rs.warnings ++
        ["Output " ++ outputName ++ " not found on node " ++ upstreamNodeName ++ "."]
      { acc with rs := { acc.rs with warnings := w1 } }

/-- The first-visit branch of `_UpdateNetwork`'s loop: mark visited,
gather the transitive upstream into `nodesToRemove`, keep the node,
generate and compile its shader, register the artifact, retype the node,
rewire the terminal input (applying the reserved-word rename), and strip
the node's own connections and parameters. -/
def processNew (o : Oracles) (terminalNodeName cName : String)
    (conn : InputConnection) (acc : UNAcc) : UNAcc :=
  let upstreamNodeName := conn.upstreamNodeName
  let outputName := conn.upstreamOutputName
  let g := gatherNodeGraphNodes acc.rs.net (acc.rs.net.nodes.length + 1)
      upstreamNodeName ⟨acc.nodesToRemove, acc.visited ++ [upstreamNodeName], []⟩
  let acc1 : UNAcc :=
    { rs := { acc.rs with warnings := acc.rs.warnings ++ g.warnings },
      nodesToKeep := insertStr acc.nodesToKeep upstreamNodeName,
      nodesToRemove := g.upstream,
      visited := g.visited }
  let mxNodeName := pathName upstreamNodeName
  let mxNodeGraphName := pathParentName upstreamNodeName
  let shaderName := mxNodeName ++ "Shader"
  let genRes := genMaterialXShaderCode o acc1.rs.doc shaderName mxNodeName mxNodeGraphName
  let acc2 : UNAcc := { acc1 with rs := { acc1.rs with
      warnings := acc1.rs.warnings ++ genRes.2,
      genAttempts := acc1.rs.genAttempts ++ [upstreamNodeName] } }
  if genRes.1 = "" then acc2
  else
    let compRes := compileOslSource o shaderName genRes.1 acc2.rs.tmpCounter
    let acc3 : UNAcc := { acc2 with rs := { acc2.rs with
        warnings := acc2.rs.warnings ++ compRes.2.1,
        compileAttempts := acc2.rs.compileAttempts ++ [shaderName],
        tmpCounter := compRes.2.2 } }
    if compRes.1 = "" then acc3
    else
      let asset := getShaderNodeFromAsset o acc3.rs.registered compRes.1
      let sdrNode := asset.1
      let net1 := setNodeType acc3.rs.net upstreamNodeName sdrNode.identifier
      let net2 :=
        if containsStr sdrNode.outputs outputName then
          match getUpdatedInputToken cName with
          | some updatedInputName =>
            deleteNodeInputConnection
              (setNodeInputConnection net1 terminalNodeName updatedInputName
                [⟨upstreamNodeName, outputName⟩])
              terminalNodeName cName
          | none =>
            setNodeInputConnection net1 terminalNodeName cName
              [⟨upstreamNodeName, outputName⟩]
        else net1
      let net3 := deleteAllParameters (deleteAllInputConnections net2 upstreamNodeName)
          upstreamNodeName
      { acc3 with rs := { acc3.rs with net := net3, registered := asset.2 } }

/-- One iteration of `_UpdateNetwork`'s inner loop over a terminal input
connection. -/
def processTerminalConnection (o : Oracles) (terminalNodeName : String)
    (acc : UNAcc) (cName : String) (conn : InputConnection) : UNAcc :=
  if getNodeType acc.rs.net conn.upstreamNodeName = "" then
    { acc with rs := { acc.rs with warnings :=
        acc.rs.warnings ++ ["Unknown material node " ++ conn.upstreamNodeName] } }
  else if containsStr acc.visited conn.upstreamNodeName then
    processReuse o terminalNodeName cName conn acc
  else
    processNew o terminalNodeName cName conn acc

/-- One step of the final pruning loop: delete the node unless it is in
`nodesToKeep`. -/
def deleteLoopStep (nodesToKeep : List String) (net : Network) (n : String) : Network :=
  if containsStr nodesToKeep n then net else deleteNode net n

/-- The main loop of `_UpdateNetwork`: iterate over the terminal node's
input connection names (snapshot taken up front) and, per name, over the
connection list fetched from the current network. -/
def updateNetworkLoop (o : Oracles) (terminalNodeName : String)
    (rs : RewriteState) : UNAcc :=
  (getNodeInputConnectionNames rs.net terminalNodeName).foldl (fun acc cName =>
      (getNodeInputConnection acc.rs.net terminalNodeName cName).foldl
        (fun a conn => processTerminalConnection o terminalNodeName a cName conn) acc)
    ⟨rs, [], [], []⟩

/-- `_UpdateNetwork`, exposing the final keep/remove/visited sets: the
main loop followed by the pruning loop over `nodesToRemove`. -/
def updateNetworkFull (o : Oracles) (terminalNodeName : String)
    (rs : RewriteState) : UNAcc :=
  let acc1 := updateNetworkLoop o terminalNodeName rs
  let finalNet := acc1.nodesToRemove.foldl (deleteLoopStep acc1.nodesToKeep) acc1.rs.net
  { acc1 with rs := { acc1.rs with net := finalNet } }

/-- `_UpdateNetwork`. -/
def updateNetwork (o : Oracles) (terminalNodeName : String)
    (rs : RewriteState) : RewriteState :=
  (updateNetworkFull o terminalNodeName rs).rs

/-! ## `_TransformTerminalNode` -/

/-- The reserved-word rename phase of `_TransformTerminalNode`: for the
non-UsdPreviewSurface adapter, copy each conflicting authored parameter to
its renamed key and delete the original. -/
def renameTerminalParameters (net : Network) (terminalNodeName adapterType : String) :
    Network :=
  if adapterType ≠ "UsdPreviewSurfaceParameters" then
    (getAuthoredNodeParameterNames net terminalNodeName).foldl (fun acc pName =>
      match getUpdatedInputToken pName with
      | some updatedName =>
        let acc1 :=
          match getNodeParameterValue acc terminalNodeName pName with
          | some v => setNodeParameterValue acc terminalNodeName updatedName v
          | none => acc
        deleteNodeParameter acc1 terminalNodeName pName
      | none => acc) net
  else net

/-- The wiring phase of `_TransformTerminalNode`: connect each declared
`PxrSurface` input to the adapter's same-named `...Out` output when the
adapter declares it. -/
def wirePxrSurface (net : Network) (pxrSurfaceNodeName terminalNodeName : String)
    (sdrPxrSurface sdrAdapterNode : SdrShaderNode) : Network :=
  sdrPxrSurface.inputs.foldl (fun acc inParamName =>
      if containsStr sdrAdapterNode.outputs (inParamName ++ "Out") then
        setNodeInputConnection acc pxrSurfaceNodeName inParamName
          [⟨terminalNodeName, inParamName ++ "Out"⟩]
      else acc) net

/-- `_TransformTerminalNode`: retype the terminal to its adapter node
type, rename reserved-word parameters (for the non-UsdPreviewSurface
adapter), create the `PxrSurface` closure node, wire its inputs to the
adapter's `...Out` outputs, and repoint the surface terminal.  Aborts
(network untouched) when the adapter's registry entry is missing.  The
source does not null-check the `PxrSurface` registry entry before
iterating its inputs; a missing entry is modelled as one with no
inputs. -/
def transformTerminalNode (o : Oracles) (registered : List SdrShaderNode)
    (net : Network) (terminalNodeName : String) : Network × List String :=
  let ad := getAdapterNodeType (getNodeType net terminalNodeName)
  let adapterType := ad.1
  let sdrAdapter := getShaderNodeByIdentifierOsl o registered adapterType
  let sdrPxrSurface := (o.regByIdentifierRmanCpp "PxrSurface").getD ⟨"", [], [], ""⟩
  match sdrAdapter with
  | none => (net, ad.2 ++ ["No sdrAdater node of type " ++ adapterType])
  | some sdrAdapterNode =>
    let net1 := setNodeType net terminalNodeName adapterType
    let net2 := renameTerminalParameters net1 terminalNodeName adapterType
    let pxrSurfaceNodeName := terminalNodeName ++ "_PxrSurface"
    let net3 := setNodeType net2 pxrSurfaceNodeName "PxrSurface"
    let net4 := wirePxrSurface net3 pxrSurfaceNodeName terminalNodeName
        sdrPxrSurface sdrAdapterNode
    (setTerminalConnection net4 "surface" ⟨pxrSurfaceNodeName, ""⟩, ad.2)

/-! ## `_GetHdWrapString` and `_GetWrapModes` -/

/-- `_GetHdWrapString`: the wrap-mode vocabulary mapping, with
diagnostics for the two unsupported modes. -/
def getHdWrapString (hdTextureNodeName mxInputValue : String) : String × List String :=
  if mxInputValue = "constant" then
    ("black", ["RtxHioImagePlugin: Texture " ++ hdTextureNodeName ++
      " has unsupported wrap mode constant using black instead."])
  else if mxInputValue = "clamp" then
    ("clamp", [])
  else if mxInputValue = "mirror" then
    ("repeat", ["RtxHioImagePlugin: Texture " ++ hdTextureNodeName ++
      " has unsupported wrap mode mirror using repeat instead."])
  else
    ("repeat", [])

/-- `_GetWrapModes`: read `uaddressmode`/`vaddressmode`, defaulting each
axis to `repeat` when unset.  Returns `(uWrap, vWrap, warnings)`. -/
def getWrapModes (net : Network) (hdTextureNodeName : String) :
    String × String × List String :=
  let uRes :=
    match getNodeParameterValue net hdTextureNodeName "uaddressmode" with
    | some v => getHdWrapString hdTextureNodeName (vtGetString v)
    | none => ("repeat", [])
  let vRes :=
    match getNodeParameterValue net hdTextureNodeName "vaddressmode" with
    | some v => getHdWrapString hdTextureNodeName (vtGetString v)
    | none => ("repeat", [])
  (uRes.1, vRes.1, uRes.2 ++ vRes.2)

/-! ## `_UpdateTextureNodes` -/

/-- One iteration of `_UpdateTextureNodes`: adapt a single texture node.
Only the document is mutated; the network is read. -/
def processTextureNode (o : Oracles) (net : Network)
    (st : MxDoc × List String) (texturePath : String) : MxDoc × List String :=
  let doc := st.1
  let ws := st.2
  let textureNodeName := texturePath
  let nodeType := getNodeType net textureNodeName
  if nodeType = "" then
    (doc, ws ++ ["Connot find texture node " ++ textureNodeName ++ " in material network."])
  else
    match getNodeParameterValue net textureNodeName "file" with
    | none => (doc, ws ++ ["File path missing for texture node " ++ textureNodeName ++ "."])
    | some vFile =>
      match vFile with
      | .asset path =>
        let ext := o.getExtension path
        match findGraphAndNodeByName doc (pathParentName texturePath) (pathName texturePath) with
        | (gOpt, true) =>
          let gName := gOpt.getD ""
          let nName := pathName texturePath
          let wrapRes := getWrapModes net textureNodeName
          let branch :=
            if ext ≠ "" ∧ ext ≠ "tex" then
              let pluginName := "RtxHioImage" ++ archLibrarySuffix
              let mxInputValue := "rtxplugin:" ++ pluginName ++ "?filename=" ++ path ++
                "&wrapS=" ++ wrapRes.1 ++ "&wrapT=" ++ wrapRes.2.1
              (doc.updateNodeIn gName nName
                 (fun nd => nd.setInputValue "file" (.str mxInputValue) "filename"),
               false, ws ++ wrapRes.2.2)
            else
              (doc.updateNodeIn gName nName
                 (fun nd => nd.setInputValue "file" (.str path) "filename"),
               true, ws)
          let doc1 := branch.1
          let needInvertT := branch.2.1
          let ws1 := branch.2.2
          let hasTexcoord :=
            match doc1.getNodeIn gName nName with
            | some nd => (nd.getInput "texcoord").isSome
            | none => false
          let doc2 :=
            if hasTexcoord then doc1
            else
              let stNodeName := textureNodeName ++ "__texcoord"
              let sdrTextureNode := (o.regByIdAndType nodeType "mtlx").getD ⟨"", [], [], ""⟩
              let geompropNode : MxNode :=
                { name := stNodeName, category := "geompropvalue",
                  nodeDef := "ND_geompropvalue_vector2",
                  inputs := [("geomprop", ⟨"string", some (.str sdrTextureNode.primvars), none⟩)] }
              let doc1a := doc1.updateNodeIn gName nName
                (fun nd => nd.addInput "texcoord" "vector2")
              let doc1b := doc1a.addNodeIn gName geompropNode
              doc1b.updateNodeIn gName nName
                (fun nd => nd.setInputConnectedNode "texcoord" (some stNodeName))
          let doc3 :=
            if needInvertT then
              match doc2.getNodeIn gName nName with
              | some texNd =>
                match texNd.getInput "texcoord" with
                | some texcoordInput =>
                  let remapNodeName := textureNodeName ++ "__remap"
                  let primvarConn :=
                    match texcoordInput.connectedNode with
                    | some s =>
                      match doc2.getNodeIn gName s with
                      | some pn => some pn.name
                      | none => none
                    | none => none
                  let remapNode : MxNode :=
                    { name := remapNodeName, category := "remap",
                      nodeDef := "ND_remap_vector2",
                      inputs := [("in", ⟨"vector2", none, primvarConn⟩),
                                 ("inhigh", ⟨"float2", some (.fvec [1, 0]), none⟩),
                                 ("inlow", ⟨"float2", some (.fvec [0, 1]), none⟩)] }
                  let doc2a := doc2.addNodeIn gName remapNode
                  doc2a.updateNodeIn gName nName
                    (fun nd => nd.setInputConnectedNode "texcoord" (some remapNodeName))
                | none => doc2
              | none => doc2
            else doc2
          (doc3, ws1)
        | (_, false) => (doc, ws)
      | _ => (doc, ws)

/-- `_UpdateTextureNodes`: adapt every discovered texture node. -/
def updateTextureNodes (o : Oracles) (net : Network)
    (hdTextureNodePaths : List String) (doc : MxDoc) : MxDoc × List String :=
  hdTextureNodePaths.foldl (processTextureNode o net) (doc, [])

/-! ## `MatfiltMaterialX` (the entry point) -/

/-- The observable outcome of one pass: the network, the diagnostics,
the registry additions, the event logs and the temporary-file counter. -/
structure PipelineResult where
  net : Network
  warnings : List String
  registered : List SdrShaderNode
  genAttempts : List String
  compileAttempts : List String
  tmpCounter : Nat
deriving DecidableEq

/-- `MatfiltMaterialX`: no-op without a `surface` terminal or when the
terminal's type has no mtlx registry entry; otherwise build the document
(an oracle), adapt texture nodes, remove the document-level material and
shader nodes, rewrite the network and finally transform the terminal. -/
def matfiltMaterialX (o : Oracles) (registered0 : List SdrShaderNode)
    (tmpCounter0 : Nat) (net : Network) : PipelineResult :=
  match getTerminalConnection net "surface" with
  | none => ⟨net, [], registered0, [], [], tmpCounter0⟩
  | some res =>
    let terminalNodeName := res.upstreamNodeName
    let terminalNodeType := getNodeType net terminalNodeName
    match o.regByIdAndType terminalNodeType "mtlx" with
    | none => ⟨net, [], registered0, [], [], tmpCounter0⟩
    | some _ =>
      let cNames := getNodeInputConnectionNames net terminalNodeName
      let rs1 : RewriteState :=
        if cNames.isEmpty then ⟨net, ⟨[], []⟩, registered0, [], [], [], tmpCounter0⟩
        else
          let built := o.buildDoc net terminalNodeName cNames
          let texRes := updateTextureNodes o net built.2 built.1
          let mxDoc2 := (texRes.1.removeDocNode ("SR_" ++ o.materialPathName)).removeDocNode
            o.materialPathName
          updateNetwork o terminalNodeName ⟨net, mxDoc2, registered0, texRes.2, [], [], tmpCounter0⟩
      let tRes := transformTerminalNode o rs1.registered rs1.net terminalNodeName
      ⟨tRes.1, rs1.warnings ++ tRes.2, rs1.registered, rs1.genAttempts,
       rs1.compileAttempts, rs1.tmpCounter⟩

/-- The entry point as called with a possibly-null network handle: a null
handle degrades to a no-op. -/
def matfiltMaterialXEntry (o : Oracles) (registered0 : List SdrShaderNode)
    (tmpCounter0 : Nat) (optNet : Option Network) : Option Network × List String :=
  match optNet with
  | none => (none, [])
  | some net =>
    let r := matfiltMaterialX o registered0 tmpCounter0 net
    (some r.net, r.warnings)

/-! ## Specification predicates -/

/-- Invariant of `_UpdateNetwork`'s main loop: every node in
`nodesToKeep` has an entry in the current network. -/
def keepInv (acc : UNAcc) : Prop := ∀ n, n ∈ acc.nodesToKeep → nodeMem acc.rs.net n

/-- Number of remap nodes (nodedef `ND_remap_vector2`) in graph `g`. -/
def countRemapNodes (doc : MxDoc) (g : String) : Nat :=
  (((doc.getNodeGraph g).getD ⟨"", []⟩).nodes.filter
    (fun nd => nd.nodeDef = "ND_remap_vector2")).length

/-! ## Concrete instances used by witnesses and counterexamples -/

/-- A document with one node graph `NG` holding leaf nodes `B` and `A`. -/
def docNG : MxDoc := ⟨[⟨"NG", [⟨"B", "nd", "", []⟩, ⟨"A", "nd", "", []⟩]⟩], []⟩

/-- A concrete oracle bundle: generation and compilation succeed, the
temporary-file name embeds the invocation counter (unique names per
invocation), registered artifacts get a path-derived identifier with one
output `out`, and the pre-existing registry holds the two adapter nodes,
`PxrSurface` and the mtlx standard-surface entry. -/
def oBase : Oracles :=
  { createShader := fun _ shaderName _ => some ("osl-" ++ shaderName)
    getExtension := fun _ => "tex"
    oslSupport := true
    stdlibExists := fun _ => false
    compileBuffer := fun _ _ => (true, "oso")
    mkTmpFileName := fun pre suf k => pre ++ String.mk (List.replicate k 'x') ++ suf
    fopenOk := fun _ => true
    nodeFromAsset := fun p => ⟨p ++ "!id", ["out"], [], ""⟩
    regByIdentifier := fun _ => none
    regByIdentifierOsl := fun ident =>
      if ident = "StandardSurfaceParameters" then some ⟨ident, ["diffuseGainOut"], [], ""⟩
      else if ident = "UsdPreviewSurfaceParameters" then some ⟨ident, [], [], ""⟩
      else none
    regByIdentifierRmanCpp := fun ident =>
      if ident = "PxrSurface" then some ⟨ident, [], ["diffuseGain", "specular"], ""⟩ else none
    regByIdAndType := fun ident ty =>
      if ty = "mtlx" ∧ ident = "ND_standard_surface_surfaceshader" then some ⟨ident, [], [], ""⟩
      else none
    searchPath := []
    buildDoc := fun _ _ _ => (docNG, [])
    materialPathName := "Mat" }

/-- Leaf upstream node of type `tA` (a type with no registry entry in
`oBase`). -/
def nodeA : MatNode := ⟨"tA", [], []⟩

/-- Node of type `tB` whose input `bin` is fed by `/M/NG/A`. -/
def nodeB : MatNode := ⟨"tB", [], [("bin", [⟨"/M/NG/A", "out"⟩])]⟩

/-- Terminal for the pruning scenario: input `a` from `/M/NG/B` (which is
itself fed by `/M/NG/A`) and input `b` directly from `/M/NG/A`. -/
def termC2 : MatNode := ⟨"ND_standard_surface_surfaceshader", [],
  [("a", [⟨"/M/NG/B", "out"⟩]), ("b", [⟨"/M/NG/A", "out"⟩])]⟩

def netC2 : Network := ⟨[("/M/T", termC2), ("/M/NG/A", nodeA), ("/M/NG/B", nodeB)],
  [("surface", ⟨"/M/T", ""⟩)]⟩

def rsC2 : RewriteState := ⟨netC2, docNG, [], [], [], [], 0⟩

/-- Terminal for the shared-upstream scenario: both inputs reference the
same upstream node `/M/NG/A`, the second requesting output `out2`. -/
def termC1 (out2 : String) : MatNode := ⟨"ND_standard_surface_surfaceshader", [],
  [("a1", [⟨"/M/NG/A", "out"⟩]), ("a2", [⟨"/M/NG/A", out2⟩])]⟩

def netC1 (out2 : String) : Network :=
  ⟨[("/M/Terminal", termC1 out2), ("/M/NG/A", nodeA)], [("surface", ⟨"/M/Terminal", ""⟩)]⟩

def rsC1 (doc : MxDoc) (out2 : String) : RewriteState :=
  ⟨netC1 out2, doc, [], [], [], [], 0⟩

/-- Terminal with one input from `/M/NG/A` (present; its type `tA` has no
registry entry in `oBase`). -/
def termC8 : MatNode := ⟨"ND_standard_surface_surfaceshader", [], [("c", [⟨"/M/NG/A", "out"⟩])]⟩

def netC8 : Network := ⟨[("/M/T", termC8), ("/M/NG/A", nodeA)], [("surface", ⟨"/M/T", ""⟩)]⟩

def rsC8 : RewriteState := ⟨netC8, docNG, [], [], [], [], 0⟩

/-- Terminal with one input from `/M/NG/X`, a node missing from the
network. -/
def termC8w : MatNode := ⟨"ND_standard_surface_surfaceshader", [], [("c", [⟨"/M/NG/X", "out"⟩])]⟩

def netC8w : Network := ⟨[("/M/T", termC8w)], [("surface", ⟨"/M/T", ""⟩)]⟩

def rsC8w : RewriteState := ⟨netC8w, docNG, [], [], [], [], 0⟩

/-- Oracle for the determinism scenario: registered identifiers are
derived from the compiled-artifact path in the documented
`path<subId><sourceType>` form. -/
def oC9 : Oracles := { oBase with nodeFromAsset := fun p => ⟨p ++ "<mtlx><OSL>", ["out"], [], ""⟩ }

def termC9 : MatNode := ⟨"ND_standard_surface_surfaceshader", [], [("a1", [⟨"/M/NG/A", "out"⟩])]⟩

def netC9 : Network := ⟨[("/M/T", termC9), ("/M/NG/A", nodeA)], [("surface", ⟨"/M/T", ""⟩)]⟩

/-- First full-pipeline run on a fresh copy of `netC9`. -/
def runC9a : PipelineResult := matfiltMaterialX oC9 [] 0 netC9

/-- Second full-pipeline run on an independent copy of the same input,
continuing the process-wide registry and temporary-file state. -/
def runC9b : PipelineResult := matfiltMaterialX oC9 runC9a.registered runC9a.tmpCounter netC9

/-- A network whose only node is a terminal of type `ty` carrying the
single authored parameter `(p, v)`. -/
def netC5 (ty p : String) (v : VtVal) : Network :=
  ⟨[("/M/T", ⟨ty, [(p, v)], []⟩)], [("surface", ⟨"/M/T", ""⟩)]⟩

/-- Network without a `surface` terminal. -/
def netNoTerm : Network := ⟨[("/M/T", termC2)], []⟩

/-- Network whose terminal node type has no mtlx registry entry in
`oBase`. -/
def netNotMtlx : Network :=
  ⟨[("/M/T", ⟨"UsdPreviewSurface", [], []⟩)], [("surface", ⟨"/M/T", ""⟩)]⟩

/-- Simple network for wrap-mode defaulting: texture node without
`uaddressmode`/`vaddressmode`. -/
def netC4w : Network := ⟨[("/M/tx", ⟨"t", [], []⟩)], []⟩

/-- Oracle whose OSL compiler reports failure (empty buffer, `false`
success flag). -/
def oC7fail : Oracles := { oBase with compileBuffer := fun _ _ => (false, "") }

/-- Oracle whose artifact file cannot be opened for writing. -/
def oC7write : Oracles := { oBase with fopenOk := fun _ => false }

/-- Oracle without OSL compiler support. -/
def oC7nosupport : Oracles := { oBase with oslSupport := false }

/-- Document for the texture scenarios: graph `NG1` with a coordinate
source `st` and a texture node `tex` whose `texcoord` input is connected
to `st`. -/
def stNodeTex : MxNode := ⟨"st", "geompropvalue", "ND_geompropvalue_vector2", []⟩

def texNodeDoc : MxNode := ⟨"tex", "image", "ND_image_color3",
  [("texcoord", ⟨"vector2", none, some "st"⟩)]⟩

def docTex : MxDoc := ⟨[⟨"NG1", [stNodeTex, texNodeDoc]⟩], []⟩

/-- Network with one texture node whose `file` parameter resolves to
`path`. -/
def netC6 (path : String) : Network :=
  ⟨[("/M/NG1/tex", ⟨"ND_image_color3", [("file", .asset path)], []⟩)], []⟩

/-- As `netC6`, with an authored `uaddressmode` of `constant` (which the
plugin branch would map with a diagnostic). -/
def netC10 (path : String) : Network :=
  ⟨[("/M/NG1/tex", ⟨"ND_image_color3",
      [("file", .asset path), ("uaddressmode", .str "constant")], []⟩)], []⟩

/-- Oracle resolving every asset to a non-native `png` extension. -/
def oPng : Oracles := { oBase with getExtension := fun _ => "png" }

/-- Oracle resolving every asset to an empty extension. -/
def oEmptyExt : Oracles := { oBase with getExtension := fun _ => "" }

/-- The remap node the vertical-flip insertion is expected to create. -/
def remapExpected : MxNode :=
  ⟨"/M/NG1/tex__remap", "remap", "ND_remap_vector2",
   [("in", ⟨"vector2", none, some "st"⟩),
    ("inhigh", ⟨"float2", some (.fvec [1, 0]), none⟩),
    ("inlow", ⟨"float2", some (.fvec [0, 1]), none⟩)]⟩

/-! # Theorems -/

/-! ## Helper lemmas -/

theorem containsStr_iff (l : List String) (x : String) :
    containsStr l x = true ↔ x ∈ l := by
  induction l with
  | nil => simp [containsStr]
  | cons y ys ih =>
    by_cases h : y = x
    · subst h; simp [containsStr]
    · simp [containsStr, h, ih, List.mem_cons, Ne.symm h]

theorem lookupA_setA {α : Type} (l : List (String × α)) (k key : String) (v : α) :
    lookupA (setA l k v) key = if k = key then some v else lookupA l key := by
  induction l with
  | nil => by_cases h : k = key <;> simp [setA, lookupA, h]
  | cons kv rest ih =>
    obtain ⟨a, b⟩ := kv
    by_cases hak : a = k
    · subst hak
      by_cases hakey : a = key <;> simp [setA, lookupA, hakey]
    · by_cases hakey : a = key
      · subst hakey
        have hk : ¬ (k = a) := fun he => hak he.symm
        simp [setA, lookupA, hak, hk]
      · simp [setA, lookupA, hak, hakey, ih]

theorem lookupA_eraseA {α : Type} (l : List (String × α)) (k key : String) :
    lookupA (eraseA l k) key = if k = key then none else lookupA l key := by
  induction l with
  | nil => by_cases h : k = key <;> simp [eraseA, lookupA, h]
  | cons kv rest ih =>
    obtain ⟨a, b⟩ := kv
    by_cases hak : a = k
    · subst hak
      by_cases hakey : a = key
      · subst hakey; simp [eraseA, lookupA, ih]
      · simp [eraseA, lookupA, hakey, ih]
    · by_cases hakey : a = key
      · subst hakey
        have hk : ¬ (k = a) := fun he => hak he.symm
        simp [eraseA, lookupA, hak, hk]
      · simp [eraseA, lookupA, hak, hakey, ih]

theorem lookupA_append {α : Type} (l1 l2 : List (String × α)) (key : String) :
    lookupA (l1 ++ l2) key =
      match lookupA l1 key with
      | some v => some v
      | none => lookupA l2 key := by
  induction l1 with
  | nil => simp [lookupA]
  | cons kv rest ih =>
    obtain ⟨a, b⟩ := kv
    by_cases h : a = key <;> simp [lookupA, h, ih]

/-! ## Lemmas about the network operations -/

theorem getNode_updNode (net : Network) (m : String) (f : MatNode → MatNode)
    (n : String) :
    getNode (updNode net m f) n =
      if m = n then some (f ((getNode net m).getD emptyMatNode)) else getNode net n := by
  unfold getNode updNode
  cases hm : lookupA net.nodes m with
  | some nd => simp [hm, lookupA_setA]
  | none =>
    rw [lookupA_append]
    by_cases hmn : m = n
    · subst hmn; simp [hm, lookupA]
    · cases hn : lookupA net.nodes n <;> simp [hn, lookupA, hmn]

theorem getNode_mapNode (net : Network) (m : String) (f : MatNode → MatNode)
    (n : String) :
    getNode (mapNode net m f) n =
      match getNode net m with
      | some nd => if m = n then some (f nd) else getNode net n
      | none => getNode net n := by
  unfold getNode mapNode
  cases hm : lookupA net.nodes m with
  | some nd => simp [hm, lookupA_setA]
  | none => simp [hm]

theorem getNodeParameterValue_updNode (net : Network) (m : String)
    (f : MatNode → MatNode) (n q : String)
    (hf : ∀ nd, (f nd).parameters = nd.parameters) :
    getNodeParameterValue (updNode net m f) n q = getNodeParameterValue net n q := by
  unfold getNodeParameterValue
  rw [getNode_updNode]
  by_cases hmn : m = n
  · subst hmn
    cases hm : getNode net m <;> simp [hm, hf, emptyMatNode, lookupA]
  · simp [hmn]

theorem getNodeParameterValue_mapNode (net : Network) (m : String)
    (f : MatNode → MatNode) (n q : String)
    (hf : ∀ nd, (f nd).parameters = nd.parameters) :
    getNodeParameterValue (mapNode net m f) n q = getNodeParameterValue net n q := by
  unfold getNodeParameterValue
  rw [getNode_mapNode]
  cases hm : getNode net m with
  | some nd =>
    by_cases hmn : m = n
    · subst hmn; simp [hm, hf]
    · simp [hmn]
  | none => rfl

theorem getNodeType_updNode (net : Network) (m : String) (f : MatNode → MatNode)
    (n : String) (hf : ∀ nd, (f nd).nodeType = nd.nodeType) :
    getNodeType (updNode net m f) n = getNodeType net n := by
  unfold getNodeType
  rw [getNode_updNode]
  by_cases hmn : m = n
  · subst hmn
    cases hm : getNode net m <;> simp [hm, hf, emptyMatNode]
  · simp [hmn]

theorem getNodeType_setNodeType (net : Network) (m t n : String) :
    getNodeType (setNodeType net m t) n = if m = n then t else getNodeType net n := by
  unfold setNodeType getNodeType
  rw [getNode_updNode]
  by_cases hmn : m = n <;> simp [hmn]

theorem getNodeParameterValue_setNodeType (net : Network) (m t : String) (n q : String) :
    getNodeParameterValue (setNodeType net m t) n q = getNodeParameterValue net n q :=
  getNodeParameterValue_updNode net m _ n q (fun _ => rfl)

theorem getNodeParameterValue_setNodeInputConnection (net : Network) (m c : String)
    (conns : List InputConnection) (n q : String) :
    getNodeParameterValue (setNodeInputConnection net m c conns) n q =
      getNodeParameterValue net n q :=
  getNodeParameterValue_updNode net m _ n q (fun _ => rfl)

theorem getNodeType_setNodeInputConnection (net : Network) (m c : String)
    (conns : List InputConnection) (n : String) :
    getNodeType (setNodeInputConnection net m c conns) n = getNodeType net n :=
  getNodeType_updNode net m _ n (fun _ => rfl)

theorem getNodeParameterValue_setTerminalConnection (net : Network) (t : String)
    (conn : InputConnection) (n q : String) :
    getNodeParameterValue (setTerminalConnection net t conn) n q =
      getNodeParameterValue net n q := rfl

theorem getNodeType_setTerminalConnection (net : Network) (t : String)
    (conn : InputConnection) (n : String) :
    getNodeType (setTerminalConnection net t conn) n = getNodeType net n := rfl

/-- A network-valued fold leaves any measure `g` unchanged when every step
does. -/
theorem foldl_netFun_const {α β : Type} (g : Network → β) (f : Network → α → Network)
    (hf : ∀ net a, g (f net a) = g net) :
    ∀ (l : List α) (net : Network), g (l.foldl f net) = g net := by
  intro l
  induction l with
  | nil => intro net; rfl
  | cons a l ih => intro net; rw [List.foldl_cons, ih, hf]

theorem getNodeParameterValue_wirePxrSurface (net : Network) (pxr t : String)
    (a b : SdrShaderNode) (n q : String) :
    getNodeParameterValue (wirePxrSurface net pxr t a b) n q =
      getNodeParameterValue net n q := by
  unfold wirePxrSurface
  exact foldl_netFun_const (fun net => getNodeParameterValue net n q) _
    (fun net i => by
      split
      · exact getNodeParameterValue_setNodeInputConnection net pxr i _ n q
      · rfl) a.inputs net

theorem getNodeType_wirePxrSurface (net : Network) (pxr t : String)
    (a b : SdrShaderNode) (n : String) :
    getNodeType (wirePxrSurface net pxr t a b) n = getNodeType net n := by
  unfold wirePxrSurface
  exact foldl_netFun_const (fun net => getNodeType net n) _
    (fun net i => by
      split
      · exact getNodeType_setNodeInputConnection net pxr i _ n
      · rfl) a.inputs net

/-! ## C4: the wrap-mode vocabulary -/

/-- C4: `_GetHdWrapString` maps `constant` to `black` with a diagnostic,
`clamp` to `clamp` silently, `mirror` to `repeat` with a diagnostic and
everything else to `repeat` silently; `_GetWrapModes` yields `repeat` for
an axis whose address-mode parameter is unset. -/
theorem C4_wrap_modes (n s tex : String) (net : Network) :
    getHdWrapString n "constant" =
      ("black", ["RtxHioImagePlugin: Texture " ++ n ++
        " has unsupported wrap mode constant using black instead."]) ∧
    getHdWrapString n "clamp" = ("clamp", []) ∧
    getHdWrapString n "mirror" =
      ("repeat", ["RtxHioImagePlugin: Texture " ++ n ++
        " has unsupported wrap mode mirror using repeat instead."]) ∧
    (s ≠ "constant" → s ≠ "clamp" → s ≠ "mirror" → getHdWrapString n s = ("repeat", [])) ∧
    (getNodeParameterValue net tex "uaddressmode" = none →
      (getWrapModes net tex).1 = "repeat") ∧
    (getNodeParameterValue net tex "vaddressmode" = none →
      (getWrapModes net tex).2.1 = "repeat") := by
  refine ⟨rfl, rfl, rfl, fun h1 h2 h3 => ?_, fun h => ?_, fun h => ?_⟩
  · simp [getHdWrapString, h1, h2, h3]
  · simp [getWrapModes, h]
  · simp [getWrapModes, h]

theorem C4_wrap_modes_witness :
    ("periodic" ≠ "constant" ∧ getHdWrapString "/M/tx" "periodic" = ("repeat", [])) ∧
    getNodeParameterValue netC4w "/M/tx" "uaddressmode" = none ∧
    (getWrapModes netC4w "/M/tx").1 = "repeat" :=
  ⟨⟨by decide, (C4_wrap_modes "/M/tx" "periodic" "/M/tx" netC4w).2.2.2.1
      (by decide) (by decide) (by decide)⟩,
   rfl,
   (C4_wrap_modes "/M/tx" "periodic" "/M/tx" netC4w).2.2.2.2.1 rfl⟩

/-! ## C3: the no-op conditions of `MatfiltMaterialX` -/

/-- C3: without a `surface` terminal, or when the terminal node's type
has no mtlx registry entry, `MatfiltMaterialX` leaves the network
unchanged with no diagnostics; a null network handle is a no-op. -/
theorem C3_noop_conditions (o : Oracles) (reg : List SdrShaderNode) (k : Nat)
    (net : Network) :
    (getTerminalConnection net "surface" = none →
      matfiltMaterialX o reg k net = ⟨net, [], reg, [], [], k⟩) ∧
    (∀ conn, getTerminalConnection net "surface" = some conn →
      o.regByIdAndType (getNodeType net conn.upstreamNodeName) "mtlx" = none →
      matfiltMaterialX o reg k net = ⟨net, [], reg, [], [], k⟩) ∧
    matfiltMaterialXEntry o reg k none = (none, []) := by
  refine ⟨fun h => ?_, fun conn h1 h2 => ?_, rfl⟩
  · simp [matfiltMaterialX, h]
  · simp [matfiltMaterialX, h1, h2]

theorem C3_noop_conditions_witness :
    getTerminalConnection netNoTerm "surface" = none ∧
    matfiltMaterialX oBase [] 0 netNoTerm = ⟨netNoTerm, [], [], [], [], 0⟩ ∧
    matfiltMaterialX oBase [] 0 netNotMtlx = ⟨netNotMtlx, [], [], [], [], 0⟩ :=
  ⟨rfl,
   (C3_noop_conditions oBase [] 0 netNoTerm).1 rfl,
   (C3_noop_conditions oBase [] 0 netNotMtlx).2.1 ⟨"/M/T", ""⟩ rfl rfl⟩

/-! ## C7: `_CompileOslSource` failure modes -/

/-- C7: evaluation of `_CompileOslSource` at its three failure modes.
A failed file write returns empty with a diagnostic, and absent OSL
support returns empty with one diagnostic without compiling — as claimed.
But a compiler error (`compile_buffer` failing) is not detected: the
source ignores the success flag, returns the temporary-file path
(non-empty) and emits no diagnostic, contradicting the claim that every
failure yields the empty string with a diagnostic. -/
theorem C7_compile_failure_modes :
    ((compileOslSource oC7fail "AShader" "bad source" 0).1 = "MX.AShader.oso" ∧
      (compileOslSource oC7fail "AShader" "bad source" 0).2.1 = []) ∧
    ((compileOslSource oC7write "AShader" "src" 0).1 = "" ∧
      (compileOslSource oC7write "AShader" "src" 0).2.1 =
        ["Unable to save compiled MaterialX Osl shader at MX.AShader.oso"]) ∧
    ((compileOslSource oC7nosupport "AShader" "src" 0).1 = "" ∧
      (compileOslSource oC7nosupport "AShader" "src" 0).2.1.length = 1) :=
  ⟨⟨rfl, rfl⟩, ⟨rfl, rfl⟩, ⟨rfl, rfl⟩⟩

/-! ## C8: skipping an unresolvable upstream node -/

/-- C8 counterexample: the guard `_HasNode` tests presence in the
*network*, not the registry.  Here the terminal's single upstream node
`/M/NG/A` is present with type `tA`, a type with no registry entry of any
kind in `oBase`; the rewrite nevertheless attempts generation and
compilation and records no diagnostic — contradicting the claim that a
node whose type has no registry entry is skipped with one diagnostic. -/
theorem C8_counterexample :
    getNodeType netC8 "/M/NG/A" = "tA" ∧
    oBase.regByIdentifier "tA" = none ∧
    oBase.regByIdentifierOsl "tA" = none ∧
    oBase.regByIdAndType "tA" "mtlx" = none ∧
    (updateNetworkFull oBase "/M/T" rsC8).rs.genAttempts = ["/M/NG/A"] ∧
    (updateNetworkFull oBase "/M/T" rsC8).rs.compileAttempts = ["AShader"] ∧
    (updateNetworkFull oBase "/M/T" rsC8).rs.warnings = [] :=
  ⟨rfl, rfl, rfl, rfl, rfl, rfl, rfl⟩

/-- C8 (amended): when the terminal's single input connection references
an upstream node whose network type is empty — the node is absent from
the network — the rewrite skips it without attempting generation or
compilation, leaves the network (and so the terminal's connection)
unchanged, and records exactly one diagnostic naming the node. -/
theorem C8_amended (o : Oracles) (rs : RewriteState) (tname c a out : String)
    (hnames : getNodeInputConnectionNames rs.net tname = [c])
    (hconn : getNodeInputConnection rs.net tname c = [⟨a, out⟩])
    (htype : getNodeType rs.net a = "") :
    updateNetworkFull o tname rs =
      ⟨{ rs with warnings := rs.warnings ++ ["Unknown material node " ++ a] },
       [], [], []⟩ := by
  simp [updateNetworkFull, updateNetworkLoop, hnames, hconn,
    processTerminalConnection, htype, deleteLoopStep]

theorem C8_amended_witness :
    updateNetworkFull oBase "/M/T" rsC8w =
      ⟨{ rsC8w with warnings := ["Unknown material node /M/NG/X"] }, [], [], []⟩ :=
  C8_amended oBase rsC8w "/M/T" "c" "/M/NG/X" "out" rfl rfl rfl

/-! ## Node-presence lemmas -/

theorem containsStr_eq_false (l : List String) (x : String) (h : x ∉ l) :
    containsStr l x = false := by
  cases hc : containsStr l x
  · rfl
  · exact absurd ((containsStr_iff l x).mp hc) h

theorem mem_insertStr (l : List String) (x n : String) (h : n ∈ insertStr l x) :
    n ∈ l ∨ n = x := by
  unfold insertStr at h
  split at h
  · exact Or.inl h
  · rcases List.mem_append.mp h with h1 | h2
    · exact Or.inl h1
    · simp at h2
      exact Or.inr h2

theorem nodeMem_of_getNodeType_ne (net : Network) (n : String)
    (h : getNodeType net n ≠ "") : nodeMem net n := by
  unfold nodeMem
  cases hn : lookupA net.nodes n with
  | some nd => rfl
  | none =>
    exfalso
    apply h
    unfold getNodeType getNode
    rw [hn]

theorem nodeMem_updNode (net : Network) (m : String) (f : MatNode → MatNode)
    (n : String) (h : nodeMem net n) : nodeMem (updNode net m f) n := by
  unfold nodeMem at *
  have he := getNode_updNode net m f n
  unfold getNode at he
  rw [he]
  by_cases hmn : m = n <;> simp [hmn, h]

theorem nodeMem_mapNode (net : Network) (m : String) (f : MatNode → MatNode)
    (n : String) (h : nodeMem net n) : nodeMem (mapNode net m f) n := by
  unfold nodeMem at *
  have he := getNode_mapNode net m f n
  unfold getNode at he
  rw [he]
  cases hm : lookupA net.nodes m with
  | some nd => by_cases hmn : m = n <;> simp [hmn, h]
  | none => simpa using h

theorem nodeMem_setNodeType (net : Network) (m t n : String) (h : nodeMem net n) :
    nodeMem (setNodeType net m t) n := nodeMem_updNode net m _ n h

theorem nodeMem_setNodeInputConnection (net : Network) (m c : String)
    (conns : List InputConnection) (n : String) (h : nodeMem net n) :
    nodeMem (setNodeInputConnection net m c conns) n := nodeMem_updNode net m _ n h

theorem nodeMem_deleteNodeInputConnection (net : Network) (m c n : String)
    (h : nodeMem net n) : nodeMem (deleteNodeInputConnection net m c) n :=
  nodeMem_mapNode net m _ n h

theorem nodeMem_deleteNodeParameter (net : Network) (m p n : String)
    (h : nodeMem net n) : nodeMem (deleteNodeParameter net m p) n :=
  nodeMem_mapNode net m _ n h

/-- A fold preserves any invariant its steps preserve. -/
theorem foldl_pres {σ α : Type} (P : σ → Prop) (f : σ → α → σ)
    (hf : ∀ s a, P s → P (f s a)) :
    ∀ (l : List α) (s : σ), P s → P (l.foldl f s) := by
  intro l
  induction l with
  | nil => exact fun s h => h
  | cons a l ih => exact fun s h => ih _ (hf s a h)

theorem nodeMem_deleteAllInputConnections (net : Network) (m n : String)
    (h : nodeMem net n) : nodeMem (deleteAllInputConnections net m) n := by
  unfold deleteAllInputConnections
  exact foldl_pres (fun net => nodeMem net n) _
    (fun net c hc => nodeMem_deleteNodeInputConnection net m c n hc) _ net h

theorem nodeMem_deleteAllParameters (net : Network) (m n : String)
    (h : nodeMem net n) : nodeMem (deleteAllParameters net m) n := by
  unfold deleteAllParameters
  exact foldl_pres (fun net => nodeMem net n) _
    (fun net p hp => nodeMem_deleteNodeParameter net m p n hp) _ net h

/-! ## Lemmas about the main loop of `_UpdateNetwork` -/

theorem nodeMem_processReuse (o : Oracles) (t c : String) (conn : InputConnection)
    (acc : UNAcc) (n : String) (h : nodeMem acc.rs.net n) :
    nodeMem (processReuse o t c conn acc).rs.net n := by
  simp only [processReuse]
  split
  · exact h
  · split
    · exact nodeMem_setNodeInputConnection acc.rs.net t c _ n h
    · exact h

theorem processReuse_sets (o : Oracles) (t c : String) (conn : InputConnection)
    (acc : UNAcc) :
    (processReuse o t c conn acc).nodesToKeep = acc.nodesToKeep ∧
    (processReuse o t c conn acc).nodesToRemove = acc.nodesToRemove ∧
    (processReuse o t c conn acc).visited = acc.visited ∧
    (processReuse o t c conn acc).rs.genAttempts = acc.rs.genAttempts ∧
    (processReuse o t c conn acc).rs.compileAttempts = acc.rs.compileAttempts ∧
    (processReuse o t c conn acc).rs.registered = acc.rs.registered := by
  simp only [processReuse]
  split
  · exact ⟨rfl, rfl, rfl, rfl, rfl, rfl⟩
  · split <;> exact ⟨rfl, rfl, rfl, rfl, rfl, rfl⟩

theorem nodeMem_processNew (o : Oracles) (t c : String) (conn : InputConnection)
    (acc : UNAcc) (n : String) (h : nodeMem acc.rs.net n) :
    nodeMem (processNew o t c conn acc).rs.net n := by
  simp only [processNew]
  split
  · exact h
  · split
    · exact h
    · apply nodeMem_deleteAllParameters
      apply nodeMem_deleteAllInputConnections
      split
      · split
        · apply nodeMem_deleteNodeInputConnection
          apply nodeMem_setNodeInputConnection
          exact nodeMem_setNodeType _ _ _ _ h
        · apply nodeMem_setNodeInputConnection
          exact nodeMem_setNodeType _ _ _ _ h
      · exact nodeMem_setNodeType _ _ _ _ h

theorem processNew_nodesToKeep (o : Oracles) (t c : String) (conn : InputConnection)
    (acc : UNAcc) :
    (processNew o t c conn acc).nodesToKeep =
      insertStr acc.nodesToKeep conn.upstreamNodeName := by
  simp only [processNew]
  split
  · rfl
  · split <;> rfl

theorem keepInv_processTerminalConnection (o : Oracles) (t : String) (acc : UNAcc)
    (cName : String) (conn : InputConnection) (h : keepInv acc) :
    keepInv (processTerminalConnection o t acc cName conn) := by
  unfold processTerminalConnection
  by_cases h1 : getNodeType acc.rs.net conn.upstreamNodeName = ""
  · rw [if_pos h1]
    intro n hn
    exact h n hn
  · rw [if_neg h1]
    by_cases h2 : containsStr acc.visited conn.upstreamNodeName = true
    · rw [if_pos h2]
      intro n hn
      rw [(processReuse_sets o t cName conn acc).1] at hn
      exact nodeMem_processReuse o t cName conn acc n (h n hn)
    · rw [if_neg h2]
      intro n hn
      rw [processNew_nodesToKeep] at hn
      rcases mem_insertStr _ _ _ hn with hmem | rfl
      · exact nodeMem_processNew o t cName conn acc n (h n hmem)
      · exact nodeMem_processNew o t cName conn acc _
          (nodeMem_of_getNodeType_ne acc.rs.net _ h1)

theorem keepInv_updateNetworkLoop (o : Oracles) (t : String) (rs : RewriteState) :
    keepInv (updateNetworkLoop o t rs) := by
  unfold updateNetworkLoop
  refine foldl_pres keepInv _ ?_ _ _ ?_
  · intro acc cName hacc
    exact foldl_pres keepInv _
      (fun a conn ha => keepInv_processTerminalConnection o t a cName conn ha) _ acc hacc
  · intro n hn
    cases hn

/-! ## Lemmas about the pruning loop -/

theorem lookupA_deleteNode (net : Network) (m n : String) :
    lookupA (deleteNode net m).nodes n = if m = n then none else lookupA net.nodes n := by
  unfold deleteNode
  exact lookupA_eraseA net.nodes m n

theorem nodeMem_deleteNode_iff (net : Network) (m n : String) (hmn : m ≠ n) :
    nodeMem (deleteNode net m) n ↔ nodeMem net n := by
  unfold nodeMem
  rw [lookupA_deleteNode, if_neg hmn]

theorem not_nodeMem_deleteNode (net : Network) (m n : String) (h : ¬ nodeMem net n) :
    ¬ nodeMem (deleteNode net m) n := by
  unfold nodeMem at *
  rw [lookupA_deleteNode]
  by_cases hmn : m = n
  · rw [if_pos hmn]
    simp
  · rw [if_neg hmn]
    exact h

theorem not_nodeMem_deleteNode_self (net : Network) (n : String) :
    ¬ nodeMem (deleteNode net n) n := by
  unfold nodeMem
  rw [lookupA_deleteNode, if_pos rfl]
  simp

theorem deleteLoop_absent (keep : List String) (l : List String) (net : Network)
    (n : String) (h : ¬ nodeMem net n) :
    ¬ nodeMem (l.foldl (deleteLoopStep keep) net) n := by
  refine foldl_pres (fun net => ¬ nodeMem net n) _ ?_ l net h
  intro net m hm
  unfold deleteLoopStep
  split
  · exact hm
  · exact not_nodeMem_deleteNode net m n hm

theorem deleteLoop_removes (keep : List String) (l : List String) (net : Network)
    (n : String) (hl : n ∈ l) (hk : containsStr keep n = false) :
    ¬ nodeMem (l.foldl (deleteLoopStep keep) net) n := by
  induction l generalizing net with
  | nil => cases hl
  | cons m l ih =>
    rw [List.foldl_cons]
    rcases List.mem_cons.mp hl with rfl | hmem
    · have hcond : ¬ (containsStr keep n = true) := by
        rw [hk]
        simp
      have hstep : deleteLoopStep keep net n = deleteNode net n := by
        unfold deleteLoopStep
        rw [if_neg hcond]
      rw [hstep]
      exact deleteLoop_absent keep l _ n (not_nodeMem_deleteNode_self net n)
    · exact ih _ hmem

theorem deleteLoop_keeps (keep : List String) (l : List String) (net : Network)
    (n : String) (hk : containsStr keep n = true) (h : nodeMem net n) :
    nodeMem (l.foldl (deleteLoopStep keep) net) n := by
  refine foldl_pres (fun net => nodeMem net n) _ ?_ l net h
  intro net m hm
  unfold deleteLoopStep
  split
  · exact hm
  next hcm =>
    have hmn : m ≠ n := fun he => hcm (he ▸ hk)
    exact (nodeMem_deleteNode_iff net m n hmn).mpr hm

/-! ## C2: pruning after the rewrite -/

/-- C2 counterexample: in `netC2` the node `/M/NG/A` is directly
connected to the terminal (input `b`) and also transitively reachable
through `/M/NG/B` (processed first, as connection name `a` sorts before
`b`); after `_UpdateNetwork` the node has been deleted from the network —
contradicting the claim that nodes directly connected to the terminal are
always retained. -/
theorem C2_counterexample :
    getNodeInputConnection netC2 "/M/T" "b" = [⟨"/M/NG/A", "out"⟩] ∧
    getNodeType netC2 "/M/NG/A" = "tA" ∧
    lookupA (updateNetworkFull oBase "/M/T" rsC2).rs.net.nodes "/M/NG/A" = none ∧
    (updateNetworkFull oBase "/M/T" rsC2).nodesToRemove = ["/M/NG/A"] ∧
    (updateNetworkFull oBase "/M/T" rsC2).nodesToKeep = ["/M/NG/B"] :=
  ⟨rfl, rfl, rfl, rfl, rfl⟩

/-- C2 (amended): after `_UpdateNetwork`, every node collected in
`nodesToRemove` that is not also in `nodesToKeep` is deleted from the
network, and every node in `nodesToKeep` — the nodes whose first
encounter during the traversal was as a direct terminal connection — is
retained.  (A node directly connected to the terminal but first reached
transitively from an earlier-processed connection's subgraph never enters
`nodesToKeep` and is deleted; see the counterexample.) -/
theorem C2_amended (o : Oracles) (t : String) (rs : RewriteState) :
    (∀ n, n ∈ (updateNetworkFull o t rs).nodesToRemove →
        n ∉ (updateNetworkFull o t rs).nodesToKeep →
        ¬ nodeMem (updateNetworkFull o t rs).rs.net n) ∧
    (∀ n, n ∈ (updateNetworkFull o t rs).nodesToKeep →
        nodeMem (updateNetworkFull o t rs).rs.net n) := by
  have hKI := keepInv_updateNetworkLoop o t rs
  unfold updateNetworkFull
  constructor
  · intro n hr hk
    exact deleteLoop_removes _ _ _ n hr (containsStr_eq_false _ n hk)
  · intro n hkeep
    exact deleteLoop_keeps _ _ _ n ((containsStr_iff _ n).mpr hkeep) (hKI n hkeep)

theorem C2_amended_witness :
    ¬ nodeMem (updateNetworkFull oBase "/M/T" rsC2).rs.net "/M/NG/A" ∧
    nodeMem (updateNetworkFull oBase "/M/T" rsC2).rs.net "/M/NG/B" :=
  ⟨(C2_amended oBase "/M/T" rsC2).1 "/M/NG/A" (by decide) (by decide),
   (C2_amended oBase "/M/T" rsC2).2 "/M/NG/B" (by decide)⟩

/-! ## C1: a shared upstream node is generated exactly once -/

/-- C1: with both terminal inputs `a1`, `a2` referencing the same upstream
node `/M/NG/A`, the rewrite generates and compiles that node exactly once
(one entry in each event log); both terminal inputs end up referencing the
generated node; when the registered entry declares the second requested
output the input is rewired silently, and when it does not, one
diagnostic is emitted and the connection is left as it was.  The final
clause states generally that an already-visited upstream node never
triggers generation or compilation. -/
theorem C1_shared_upstream (o : Oracles) (out2 src : String)
    (hgen : o.createShader docNG "AShader" "A" = some src)
    (hsrc : src ≠ "")
    (hosl : o.oslSupport = true)
    (hopen : o.fopenOk (o.mkTmpFileName "MX.AShader" ".oso" 0) = true)
    (hp : o.mkTmpFileName "MX.AShader" ".oso" 0 ≠ "")
    (hid : (o.nodeFromAsset (o.mkTmpFileName "MX.AShader" ".oso" 0)).identifier ≠ "")
    (hout : containsStr (o.nodeFromAsset (o.mkTmpFileName "MX.AShader" ".oso" 0)).outputs
      "out" = true) :
    (updateNetworkFull o "/M/Terminal" (rsC1 docNG out2)).rs.genAttempts = ["/M/NG/A"] ∧
    (updateNetworkFull o "/M/Terminal" (rsC1 docNG out2)).rs.compileAttempts = ["AShader"] ∧
    getNodeInputConnection (updateNetworkFull o "/M/Terminal" (rsC1 docNG out2)).rs.net
      "/M/Terminal" "a1" = [⟨"/M/NG/A", "out"⟩] ∧
    getNodeInputConnection (updateNetworkFull o "/M/Terminal" (rsC1 docNG out2)).rs.net
      "/M/Terminal" "a2" = [⟨"/M/NG/A", out2⟩] ∧
    (containsStr (o.nodeFromAsset (o.mkTmpFileName "MX.AShader" ".oso" 0)).outputs out2 =
        true →
      (updateNetworkFull o "/M/Terminal" (rsC1 docNG out2)).rs.warnings = []) ∧
    (containsStr (o.nodeFromAsset (o.mkTmpFileName "MX.AShader" ".oso" 0)).outputs out2 =
        false →
      (updateNetworkFull o "/M/Terminal" (rsC1 docNG out2)).rs.warnings =
        ["Output " ++ out2 ++ " not found on node " ++ "/M/NG/A" ++ "."]) ∧
    (∀ (acc : UNAcc) (cn : String) (conn : InputConnection),
      containsStr acc.visited conn.upstreamNodeName = true →
      (processTerminalConnection o "/M/Terminal" acc cn conn).rs.genAttempts =
          acc.rs.genAttempts ∧
      (processTerminalConnection o "/M/Terminal" acc cn conn).rs.compileAttempts =
          acc.rs.compileAttempts) := by
  have hgeneral : ∀ (acc : UNAcc) (cn : String) (conn : InputConnection),
      containsStr acc.visited conn.upstreamNodeName = true →
      (processTerminalConnection o "/M/Terminal" acc cn conn).rs.genAttempts =
          acc.rs.genAttempts ∧
      (processTerminalConnection o "/M/Terminal" acc cn conn).rs.compileAttempts =
          acc.rs.compileAttempts := by
    intro acc cn conn hvis
    unfold processTerminalConnection
    by_cases h1 : getNodeType acc.rs.net conn.upstreamNodeName = ""
    · rw [if_pos h1]
      exact ⟨rfl, rfl⟩
    · rw [if_neg h1, if_pos hvis]
      exact ⟨(processReuse_sets o "/M/Terminal" cn conn acc).2.2.2.1,
             (processReuse_sets o "/M/Terminal" cn conn acc).2.2.2.2.1⟩
  have htA : getNodeType (netC1 out2) "/M/NG/A" = "tA" := rfl
  have hlen : (netC1 out2).nodes.length = 2 := rfl
  have hgth : gatherNodeGraphNodes (netC1 out2) 3 "/M/NG/A" ⟨[], ["/M/NG/A"], []⟩ =
      ⟨[], ["/M/NG/A"], []⟩ := rfl
  have hpn : pathName "/M/NG/A" = "A" := rfl
  have hppn : pathParentName "/M/NG/A" = "NG" := rfl
  have hfind : findGraphAndNodeByName docNG "NG" "A" = (some "NG", true) := rfl
  have hgencall : genMaterialXShaderCode o docNG "AShader" "A" "NG" = (src, []) := by
    simp only [genMaterialXShaderCode, hfind, hgen]
  have hcompcall : compileOslSource o "AShader" src 0 =
      (o.mkTmpFileName "MX.AShader" ".oso" 0, [], 1) := by
    simp only [compileOslSource, hosl, ite_true, String.reduceAppend, hopen]
  have hnames : getNodeInputConnectionNames (netC1 out2) "/M/Terminal" = ["a1", "a2"] := rfl
  have hconn1 : getNodeInputConnection (netC1 out2) "/M/Terminal" "a1" =
      [⟨"/M/NG/A", "out"⟩] := rfl
  have hnamesA : ∀ X : String, getNodeInputConnectionNames
      (setNodeInputConnection (setNodeType (netC1 out2) "/M/NG/A" X) "/M/Terminal" "a1"
        [⟨"/M/NG/A", "out"⟩]) "/M/NG/A" = [] := fun X => rfl
  have hparamsA : ∀ X : String, getAuthoredNodeParameterNames
      (setNodeInputConnection (setNodeType (netC1 out2) "/M/NG/A" X) "/M/Terminal" "a1"
        [⟨"/M/NG/A", "out"⟩]) "/M/NG/A" = [] := fun X => rfl
  have h1 : processTerminalConnection o "/M/Terminal"
      ⟨⟨netC1 out2, docNG, [], [], [], [], 0⟩, [], [], []⟩ "a1" ⟨"/M/NG/A", "out"⟩ =
      ⟨⟨setNodeInputConnection (setNodeType (netC1 out2) "/M/NG/A"
            (o.nodeFromAsset (o.mkTmpFileName "MX.AShader" ".oso" 0)).identifier)
          "/M/Terminal" "a1" [⟨"/M/NG/A", "out"⟩],
        docNG, [o.nodeFromAsset (o.mkTmpFileName "MX.AShader" ".oso" 0)], [],
        ["/M/NG/A"], ["AShader"], 1⟩,
       ["/M/NG/A"], [], ["/M/NG/A"]⟩ := by
    simp only [processTerminalConnection, processNew, htA, hlen, hgth, hpn, hppn,
      hgencall, hcompcall, hnamesA, hparamsA, hgen, hsrc, hosl, hopen, hp, hout,
      getShaderNodeFromAsset, lookupRegistered, getUpdatedInputToken,
      deleteAllInputConnections, deleteAllParameters, containsStr, insertStr,
      List.foldl_cons, List.foldl_nil, List.nil_append, List.append_nil,
      List.length_cons, List.length_nil, Nat.reduceAdd, String.reduceAppend,
      String.reduceEq, reduceIte, ne_eq, ite_true, ite_false, if_true, if_false,
      Bool.false_eq_true]
  have htA2 : getNodeType (setNodeInputConnection (setNodeType (netC1 out2) "/M/NG/A"
        (o.nodeFromAsset (o.mkTmpFileName "MX.AShader" ".oso" 0)).identifier)
      "/M/Terminal" "a1" [⟨"/M/NG/A", "out"⟩]) "/M/NG/A" =
      (o.nodeFromAsset (o.mkTmpFileName "MX.AShader" ".oso" 0)).identifier := rfl
  have hconn2 : getNodeInputConnection (setNodeInputConnection (setNodeType (netC1 out2)
        "/M/NG/A" (o.nodeFromAsset (o.mkTmpFileName "MX.AShader" ".oso" 0)).identifier)
      "/M/Terminal" "a1" [⟨"/M/NG/A", "out"⟩]) "/M/Terminal" "a2" =
      [⟨"/M/NG/A", out2⟩] := rfl
  by_cases hc2 : containsStr
      (o.nodeFromAsset (o.mkTmpFileName "MX.AShader" ".oso" 0)).outputs out2 = true
  · have h2 : processTerminalConnection o "/M/Terminal"
        ⟨⟨setNodeInputConnection (setNodeType (netC1 out2) "/M/NG/A"
              (o.nodeFromAsset (o.mkTmpFileName "MX.AShader" ".oso" 0)).identifier)
            "/M/Terminal" "a1" [⟨"/M/NG/A", "out"⟩],
          docNG, [o.nodeFromAsset (o.mkTmpFileName "MX.AShader" ".oso" 0)], [],
          ["/M/NG/A"], ["AShader"], 1⟩,
         ["/M/NG/A"], [], ["/M/NG/A"]⟩ "a2" ⟨"/M/NG/A", out2⟩ =
        ⟨⟨setNodeInputConnection (setNodeInputConnection (setNodeType (netC1 out2) "/M/NG/A"
              (o.nodeFromAsset (o.mkTmpFileName "MX.AShader" ".oso" 0)).identifier)
            "/M/Terminal" "a1" [⟨"/M/NG/A", "out"⟩]) "/M/Terminal" "a2" [⟨"/M/NG/A", out2⟩],
          docNG, [o.nodeFromAsset (o.mkTmpFileName "MX.AShader" ".oso" 0)], [],
          ["/M/NG/A"], ["AShader"], 1⟩,
         ["/M/NG/A"], [], ["/M/NG/A"]⟩ := by
      simp only [processTerminalConnection, processReuse, htA2, hid, hc2,
        getShaderNodeByIdentifier, lookupRegistered, containsStr,
        eq_self_iff_true, ne_eq, ite_true, ite_false, if_true, if_false,
        Bool.false_eq_true, String.reduceEq, reduceIte]
    have hloop : updateNetworkLoop o "/M/Terminal" (rsC1 docNG out2) =
        ⟨⟨setNodeInputConnection (setNodeInputConnection (setNodeType (netC1 out2) "/M/NG/A"
              (o.nodeFromAsset (o.mkTmpFileName "MX.AShader" ".oso" 0)).identifier)
            "/M/Terminal" "a1" [⟨"/M/NG/A", "out"⟩]) "/M/Terminal" "a2" [⟨"/M/NG/A", out2⟩],
          docNG, [o.nodeFromAsset (o.mkTmpFileName "MX.AShader" ".oso" 0)], [],
          ["/M/NG/A"], ["AShader"], 1⟩,
         ["/M/NG/A"], [], ["/M/NG/A"]⟩ := by
      simp only [updateNetworkLoop, rsC1, hnames, List.foldl_cons, List.foldl_nil,
        hconn1, h1, hconn2, h2]
    have hfull : updateNetworkFull o "/M/Terminal" (rsC1 docNG out2) =
        ⟨⟨setNodeInputConnection (setNodeInputConnection (setNodeType (netC1 out2) "/M/NG/A"
              (o.nodeFromAsset (o.mkTmpFileName "MX.AShader" ".oso" 0)).identifier)
            "/M/Terminal" "a1" [⟨"/M/NG/A", "out"⟩]) "/M/Terminal" "a2" [⟨"/M/NG/A", out2⟩],
          docNG, [o.nodeFromAsset (o.mkTmpFileName "MX.AShader" ".oso" 0)], [],
          ["/M/NG/A"], ["AShader"], 1⟩,
         ["/M/NG/A"], [], ["/M/NG/A"]⟩ := by
      simp only [updateNetworkFull, hloop, List.foldl_cons, List.foldl_nil, deleteLoopStep,
        containsStr, ite_true, ite_false, if_true, if_false, Bool.false_eq_true,
        String.reduceEq, reduceIte]
    rw [hfull]
    refine ⟨rfl, rfl, rfl, rfl, fun _ => rfl, fun hcn => ?_, hgeneral⟩
    · rw [hcn] at hc2
      exact Bool.noConfusion hc2
  · rw [Bool.not_eq_true] at hc2
    have h2 : processTerminalConnection o "/M/Terminal"
        ⟨⟨setNodeInputConnection (setNodeType (netC1 out2) "/M/NG/A"
              (o.nodeFromAsset (o.mkTmpFileName "MX.AShader" ".oso" 0)).identifier)
            "/M/Terminal" "a1" [⟨"/M/NG/A", "out"⟩],
          docNG, [o.nodeFromAsset (o.mkTmpFileName "MX.AShader" ".oso" 0)], [],
          ["/M/NG/A"], ["AShader"], 1⟩,
         ["/M/NG/A"], [], ["/M/NG/A"]⟩ "a2" ⟨"/M/NG/A", out2⟩ =
        ⟨⟨setNodeInputConnection (setNodeType (netC1 out2) "/M/NG/A"
              (o.nodeFromAsset (o.mkTmpFileName "MX.AShader" ".oso" 0)).identifier)
            "/M/Terminal" "a1" [⟨"/M/NG/A", "out"⟩],
          docNG, [o.nodeFromAsset (o.mkTmpFileName "MX.AShader" ".oso" 0)],
          ["Output " ++ out2 ++ " not found on node " ++ "/M/NG/A" ++ "."],
          ["/M/NG/A"], ["AShader"], 1⟩,
         ["/M/NG/A"], [], ["/M/NG/A"]⟩ := by
      simp only [processTerminalConnection, processReuse, htA2, hid, hc2,
        getShaderNodeByIdentifier, lookupRegistered, containsStr,
        eq_self_iff_true, ne_eq, ite_true, ite_false, if_true, if_false,
        Bool.false_eq_true, String.reduceEq, reduceIte, List.nil_append]
    have hloop : updateNetworkLoop o "/M/Terminal" (rsC1 docNG out2) =
        ⟨⟨setNodeInputConnection (setNodeType (netC1 out2) "/M/NG/A"
              (o.nodeFromAsset (o.mkTmpFileName "MX.AShader" ".oso" 0)).identifier)
            "/M/Terminal" "a1" [⟨"/M/NG/A", "out"⟩],
          docNG, [o.nodeFromAsset (o.mkTmpFileName "MX.AShader" ".oso" 0)],
          ["Output " ++ out2 ++ " not found on node " ++ "/M/NG/A" ++ "."],
          ["/M/NG/A"], ["AShader"], 1⟩,
         ["/M/NG/A"], [], ["/M/NG/A"]⟩ := by
      simp only [updateNetworkLoop, rsC1, hnames, List.foldl_cons, List.foldl_nil,
        hconn1, h1, hconn2, h2]
    have hfull : updateNetworkFull o "/M/Terminal" (rsC1 docNG out2) =
        ⟨⟨setNodeInputConnection (setNodeType (netC1 out2) "/M/NG/A"
              (o.nodeFromAsset (o.mkTmpFileName "MX.AShader" ".oso" 0)).identifier)
            "/M/Terminal" "a1" [⟨"/M/NG/A", "out"⟩],
          docNG, [o.nodeFromAsset (o.mkTmpFileName "MX.AShader" ".oso" 0)],
          ["Output " ++ out2 ++ " not found on node " ++ "/M/NG/A" ++ "."],
          ["/M/NG/A"], ["AShader"], 1⟩,
         ["/M/NG/A"], [], ["/M/NG/A"]⟩ := by
      simp only [updateNetworkFull, hloop, List.foldl_cons, List.foldl_nil, deleteLoopStep,
        containsStr, ite_true, ite_false, if_true, if_false, Bool.false_eq_true,
        String.reduceEq, reduceIte]
    rw [hfull]
    refine ⟨rfl, rfl, rfl, hconn2, fun hcp => ?_, fun _ => rfl, hgeneral⟩
    · rw [hcp] at hc2
      exact Bool.noConfusion hc2

theorem C1_shared_upstream_witness :
    ("osl-AShader" : String) ≠ "" ∧
    (updateNetworkFull oBase "/M/Terminal" (rsC1 docNG "out")).rs.genAttempts =
      ["/M/NG/A"] ∧
    (updateNetworkFull oBase "/M/Terminal" (rsC1 docNG "out")).rs.compileAttempts =
      ["AShader"] ∧
    getNodeInputConnection (updateNetworkFull oBase "/M/Terminal" (rsC1 docNG "out")).rs.net
      "/M/Terminal" "a2" = [⟨"/M/NG/A", "out"⟩] :=
  ⟨by decide,
   (C1_shared_upstream oBase "out" "osl-AShader" rfl (by decide) rfl rfl
      (by decide) (by decide) rfl).1,
   (C1_shared_upstream oBase "out" "osl-AShader" rfl (by decide) rfl rfl
      (by decide) (by decide) rfl).2.1,
   (C1_shared_upstream oBase "out" "osl-AShader" rfl (by decide) rfl rfl
      (by decide) (by decide) rfl).2.2.2.1⟩

/-! ## C5: reserved-word parameter rename on the terminal -/

/-- C5: for a standard-surface terminal carrying one authored parameter
from the rename table with value `v`, the terminal transform retypes the
node to the StandardSurface adapter and renames the parameter
(`emission to emission_value`, `subsurface to subsurface_value`,
`normal to input_normal`), so the new key holds `v` and the old key is
gone; for the UsdPreviewSurface adapter type the rename is not applied. -/
theorem C5_reserved_word_rename (o : Oracles) (v : VtVal) (p p' : String)
    (ae au : SdrShaderNode)
    (hp : (p, p') ∈ [("emission", "emission_value"), ("subsurface", "subsurface_value"),
          ("normal", "input_normal")])
    (had : o.regByIdentifierOsl "StandardSurfaceParameters" = some ae)
    (hau : o.regByIdentifierOsl "UsdPreviewSurfaceParameters" = some au) :
    (getNodeParameterValue
        (transformTerminalNode o [] (netC5 "ND_standard_surface_surfaceshader" p v) "/M/T").1
        "/M/T" p' = some v ∧
      getNodeParameterValue
        (transformTerminalNode o [] (netC5 "ND_standard_surface_surfaceshader" p v) "/M/T").1
        "/M/T" p = none ∧
      getNodeType
        (transformTerminalNode o [] (netC5 "ND_standard_surface_surfaceshader" p v) "/M/T").1
        "/M/T" = "StandardSurfaceParameters") ∧
    (getNodeParameterValue
        (transformTerminalNode o [] (netC5 "ND_UsdPreviewSurface_surfaceshader" p v) "/M/T").1
        "/M/T" p = some v ∧
      getNodeParameterValue
        (transformTerminalNode o [] (netC5 "ND_UsdPreviewSurface_surfaceshader" p v) "/M/T").1
        "/M/T" p' = none ∧
      getNodeType
        (transformTerminalNode o [] (netC5 "ND_UsdPreviewSurface_surfaceshader" p v) "/M/T").1
        "/M/T" = "UsdPreviewSurfaceParameters") := by
  have hstd : getNodeType (netC5 "ND_standard_surface_surfaceshader" p v) "/M/T" =
      "ND_standard_surface_surfaceshader" := rfl
  have husd : getNodeType (netC5 "ND_UsdPreviewSurface_surfaceshader" p v) "/M/T" =
      "ND_UsdPreviewSurface_surfaceshader" := rfl
  have hads : getAdapterNodeType "ND_standard_surface_surfaceshader" =
      ("StandardSurfaceParameters", []) := rfl
  have hadu : getAdapterNodeType "ND_UsdPreviewSurface_surfaceshader" =
      ("UsdPreviewSurfaceParameters", []) := rfl
  have hlook : getShaderNodeByIdentifierOsl o [] "StandardSurfaceParameters" = some ae := by
    simp [getShaderNodeByIdentifierOsl, lookupRegistered, had]
  have hlooku : getShaderNodeByIdentifierOsl o [] "UsdPreviewSurfaceParameters" = some au := by
    simp [getShaderNodeByIdentifierOsl, lookupRegistered, hau]
  simp only [List.mem_cons, List.not_mem_nil, or_false, Prod.mk.injEq] at hp
  rcases hp with ⟨rfl, rfl⟩ | ⟨rfl, rfl⟩ | ⟨rfl, rfl⟩ <;>
    refine ⟨⟨?_, ?_, ?_⟩, ?_, ?_, ?_⟩ <;>
    simp only [transformTerminalNode, hstd, husd, hads, hadu, hlook, hlooku,
      getNodeParameterValue_setTerminalConnection, getNodeParameterValue_wirePxrSurface,
      getNodeParameterValue_setNodeType,
      getNodeType_setTerminalConnection, getNodeType_wirePxrSurface,
      getNodeType_setNodeType] <;>
    rfl

theorem C5_reserved_word_rename_witness :
    ("normal", "input_normal") ∈
      [("emission", "emission_value"), ("subsurface", "subsurface_value"),
       ("normal", "input_normal")] ∧
    getNodeParameterValue
      (transformTerminalNode oBase []
        (netC5 "ND_standard_surface_surfaceshader" "normal" (.other "V")) "/M/T").1
      "/M/T" "input_normal" = some (.other "V") ∧
    getNodeParameterValue
      (transformTerminalNode oBase []
        (netC5 "ND_standard_surface_surfaceshader" "normal" (.other "V")) "/M/T").1
      "/M/T" "normal" = none :=
  ⟨by decide,
   (C5_reserved_word_rename oBase (.other "V") "normal" "input_normal"
      ⟨"StandardSurfaceParameters", ["diffuseGainOut"], [], ""⟩
      ⟨"UsdPreviewSurfaceParameters", [], [], ""⟩ (by decide) rfl rfl).1.1,
   (C5_reserved_word_rename oBase (.other "V") "normal" "input_normal"
      ⟨"StandardSurfaceParameters", ["diffuseGainOut"], [], ""⟩
      ⟨"UsdPreviewSurfaceParameters", [], [], ""⟩ (by decide) rfl rfl).1.2.1⟩

/-! ## C6: the vertical-flip remap node -/

/-- C6: a texture node whose resolved file has the native `tex` extension
gains exactly one remap node on its coordinate path, with
`inhigh = (1,0)` and `inlow = (0,1)`, the previous coordinate source
wired into the remap node's `in` input and the remap node wired into the
texture node's `texcoord` input; a texture node taking the non-native
plugin branch gains no remap node. -/
theorem C6_remap_insertion (o : Oracles) (path : String) :
    (o.getExtension path = "tex" →
      countRemapNodes (updateTextureNodes o (netC6 path) ["/M/NG1/tex"] docTex).1 "NG1" = 1 ∧
      (updateTextureNodes o (netC6 path) ["/M/NG1/tex"] docTex).1.getNodeIn
        "NG1" "/M/NG1/tex__remap" = some remapExpected ∧
      ((updateTextureNodes o (netC6 path) ["/M/NG1/tex"] docTex).1.getNodeIn "NG1" "tex").bind
        (fun nd => nd.getInput "texcoord") =
          some ⟨"vector2", none, some "/M/NG1/tex__remap"⟩) ∧
    (∀ e, o.getExtension path = e → e ≠ "" → e ≠ "tex" →
      countRemapNodes (updateTextureNodes o (netC6 path) ["/M/NG1/tex"] docTex).1 "NG1" = 0 ∧
      (updateTextureNodes o (netC6 path) ["/M/NG1/tex"] docTex).1.getNodeIn
        "NG1" "/M/NG1/tex__remap" = none) := by
  have htype : getNodeType (netC6 path) "/M/NG1/tex" = "ND_image_color3" := rfl
  have hfile : getNodeParameterValue (netC6 path) "/M/NG1/tex" "file" = some (.asset path) := rfl
  have hfind : findGraphAndNodeByName docTex (pathParentName "/M/NG1/tex")
      (pathName "/M/NG1/tex") = (some "NG1", true) := rfl
  constructor
  · intro h
    simp only [updateTextureNodes, List.foldl_cons, List.foldl_nil, processTextureNode,
      htype, hfile, hfind, h]
    refine ⟨?_, ?_, ?_⟩ <;> rfl
  · intro e h he1 he2
    simp only [updateTextureNodes, List.foldl_cons, List.foldl_nil, processTextureNode,
      htype, hfile, hfind, h]
    simp only [ne_eq, he1, he2, not_false_iff, and_self, if_true]
    refine ⟨?_, ?_⟩ <;> rfl

theorem C6_remap_insertion_witness :
    oBase.getExtension "/a/f.tex" = "tex" ∧
    countRemapNodes (updateTextureNodes oBase (netC6 "/a/f.tex") ["/M/NG1/tex"] docTex).1
      "NG1" = 1 ∧
    oPng.getExtension "/a/f.png" ≠ "" ∧ oPng.getExtension "/a/f.png" ≠ "tex" ∧
    countRemapNodes (updateTextureNodes oPng (netC6 "/a/f.png") ["/M/NG1/tex"] docTex).1
      "NG1" = 0 :=
  ⟨rfl, ((C6_remap_insertion oBase "/a/f.tex").1 rfl).1, by decide, by decide,
   ((C6_remap_insertion oPng "/a/f.png").2 "png" rfl (by decide) (by decide)).1⟩

/-! ## C10: empty extension takes the native branch -/

/-- C10: a texture node whose resolved path has an empty extension takes
the native-format branch: the document's `file` input is set to the
resolved path directly (no `rtxplugin` indirection), the wrap-mode
parameters are ignored (no diagnostics although `uaddressmode` is
`constant`), and the node is flagged for the vertical flip, gaining the
remap node. -/
theorem C10_empty_extension_native (o : Oracles) (path : String)
    (hext : o.getExtension path = "") :
    (updateTextureNodes o (netC10 path) ["/M/NG1/tex"] docTex).2 = [] ∧
    ((updateTextureNodes o (netC10 path) ["/M/NG1/tex"] docTex).1.getNodeIn "NG1" "tex").bind
      (fun nd => (nd.getInput "file").bind (fun i => i.value)) = some (.str path) ∧
    (updateTextureNodes o (netC10 path) ["/M/NG1/tex"] docTex).1.getNodeIn
      "NG1" "/M/NG1/tex__remap" = some remapExpected := by
  have htype : getNodeType (netC10 path) "/M/NG1/tex" = "ND_image_color3" := rfl
  have hfile : getNodeParameterValue (netC10 path) "/M/NG1/tex" "file" = some (.asset path) := rfl
  have hfind : findGraphAndNodeByName docTex (pathParentName "/M/NG1/tex")
      (pathName "/M/NG1/tex") = (some "NG1", true) := rfl
  simp only [updateTextureNodes, List.foldl_cons, List.foldl_nil, processTextureNode,
    htype, hfile, hfind, hext]
  refine ⟨?_, ?_, ?_⟩ <;> rfl

/-- C9 counterexample: two full-pipeline runs on independent copies of
the same input network (the second continuing the process-wide registry
and temporary-file state, whose names are unique per invocation and whose
registered identifiers derive from the artifact path) do not produce
byte-identical output networks. -/
theorem C9_counterexample : runC9a.net ≠ runC9b.net := by decide

/-- C9 (amended): the two runs agree on everything except the retyped
node's type identifier, which embeds the per-invocation compiled-artifact
path (`MX.AShader.oso` versus `MX.AShaderx.oso`); overwriting that one
type makes the outputs equal, and a run whose artifact path coincides
with the first run's reproduces its output byte-for-byte. -/
theorem C9_amended :
    getNodeType runC9a.net "/M/NG/A" = "MX.AShader.oso<mtlx><OSL>" ∧
    getNodeType runC9b.net "/M/NG/A" = "MX.AShaderx.oso<mtlx><OSL>" ∧
    setNodeType runC9a.net "/M/NG/A" "" = setNodeType runC9b.net "/M/NG/A" "" ∧
    runC9a.warnings = runC9b.warnings ∧
    (matfiltMaterialX oC9 runC9a.registered 0 netC9).net = runC9a.net :=
  ⟨rfl, rfl, rfl, rfl, rfl⟩

theorem C10_empty_extension_native_witness :
    oEmptyExt.getExtension "relpath" = "" ∧
    (updateTextureNodes oEmptyExt (netC10 "relpath") ["/M/NG1/tex"] docTex).2 = [] ∧
    ((updateTextureNodes oEmptyExt (netC10 "relpath") ["/M/NG1/tex"] docTex).1.getNodeIn
        "NG1" "tex").bind (fun nd => (nd.getInput "file").bind (fun i => i.value)) =
      some (.str "relpath") :=
  ⟨rfl, (C10_empty_extension_native oEmptyExt "relpath" rfl).1,
   (C10_empty_extension_native oEmptyExt "relpath" rfl).2.1⟩

end MatfiltMX
